import Mathlib

/-!
Verification development for the PhotoShutterInspector metadata-extraction and
comparison engine (`photoshutterinspector.py`).

The Python core is shallowly embedded:

* a raw metadata mapping (a Python `dict` from string keys to JSON scalars,
  iterated in insertion order) is an association list `Exif`;
* a scalar tag value is `ExifValue` (Python `int` as `Int`, Python `float`
  modelled as a rational number `ℚ`, Python `str` as `String`);
* Python truthiness, `==` between scalars, and `int(·)` coercion are the
  functions `pyTruthy`, `pyEq`, `ratTrunc`/`strToNat`;
* code that can raise an uncaught Python exception is embedded in
  `Except PyExn`;
* string rendering of a float in a message is approximate (floats are
  rationals here); no theorem below depends on the rendering of a float.
-/

namespace PSI

/-- A scalar metadata value as delivered by the JSON backend: a Python
`int`, `float` (modelled as a rational) or `str`. -/
inductive ExifValue where
  | vInt (i : Int)
  | vFloat (q : ℚ)
  | vStr (s : String)
deriving DecidableEq

/-- A raw metadata mapping: key/value pairs in insertion order
(a Python `dict` iterates in insertion order). -/
abbrev Exif := List (String × ExifValue)

/-- Python truthiness of a scalar: `0`, `0.0` and `""` are falsy. -/
def pyTruthy : ExifValue → Bool
  | .vInt i => i != 0
  | .vFloat q => q != 0
  | .vStr s => s != ""

/-- Truthiness of an optional value; Python `None` is falsy. -/
def truthyOpt : Option ExifValue → Bool
  | none => false
  | some v => pyTruthy v

/-- Python `==` between scalars: numeric values compare across `int`/`float`,
a number never equals a string. -/
def pyEq : ExifValue → ExifValue → Bool
  | .vInt a, .vInt b => a == b
  | .vInt a, .vFloat q => ((a : ℚ) == q)
  | .vFloat q, .vInt a => (q == (a : ℚ))
  | .vFloat a, .vFloat b => a == b
  | .vStr a, .vStr b => a == b
  | _, _ => false

/-- Python `==` between optional scalars: `None == None` is `True`,
`None` never equals a value. -/
def pyEqOpt : Option ExifValue → Option ExifValue → Bool
  | none, none => true
  | some a, some b => pyEq a b
  | _, _ => false

/-- Python `int(·)` on a float: truncation toward zero. -/
def ratTrunc (q : ℚ) : Int := if q < 0 then -(Rat.floor (-q)) else Rat.floor q

/-- Value of a string of decimal digits (Python `int(s)` for `s.isdigit()`). -/
def strToNat (s : String) : Nat := s.data.foldl (fun n c => n * 10 + (c.toNat - 48)) 0

/-- Python `s.isdigit()` restricted to ASCII: non-empty and all digits. -/
def pyIsDigit (s : String) : Bool := s != "" && s.data.all Char.isDigit

/-- Python `s.lower()` (ASCII). -/
def lowerStr (s : String) : String := String.mk (s.data.map Char.toLower)

/-- Python `s.upper()` (ASCII). -/
def upperStr (s : String) : String := String.mk (s.data.map Char.toUpper)

/-- Python `needle in hay` for strings: substring containment. -/
def substrB (needle hay : String) : Bool :=
  hay.data.tails.any (fun t => needle.data.isPrefixOf t)

/-- Python `s.endswith(suffixStr)`. -/
def endsWithB (s suffixStr : String) : Bool := suffixStr.data.isSuffixOf s.data

/-- Python `s.split(':')[-1]`: the part after the last colon (the whole
string when there is no colon). -/
def lastColonPart (s : String) : String :=
  String.mk (s.data.foldl (fun acc c => if c == ':' then [] else acc ++ [c]) [])

/-- Python `s.title()` (ASCII): uppercase each letter that follows a
non-letter, lowercase the other letters. -/
def titleCase (s : String) : String :=
  String.mk (s.data.foldl
    (fun (acc : List Char × Bool) c =>
      if c.isAlpha then (acc.1 ++ [if acc.2 then c.toLower else c.toUpper], true)
      else (acc.1 ++ [c], false))
    ([], false)).1

/-- Decimal digits of a natural number; structural recursion on a fuel
argument so that the kernel can evaluate it. -/
def natDigitsAux : Nat → Nat → List Char
  | _, 0 => []
  | n, fuel + 1 =>
    if n < 10 then [Char.ofNat (48 + n)]
    else natDigitsAux (n / 10) fuel ++ [Char.ofNat (48 + n % 10)]

/-- Python `str(n)` for a natural number. -/
def natToStr (n : Nat) : String := String.mk (natDigitsAux n (n + 1))

/-- Python `str(i)` for an integer. -/
def intToStr (i : Int) : String :=
  if i < 0 then "-" ++ natToStr i.natAbs else natToStr i.natAbs

/-- Python `str(value)` for a scalar; the float case is an approximate
rendering (floats are modelled as rationals). -/
def pyStrVal : ExifValue → String
  | .vStr s => s
  | .vInt i => intToStr i
  | .vFloat q => intToStr q.num ++ "/" ++ natToStr q.den

/-- Rendering of an optional value inside an f-string; `None` renders
as `"None"`. -/
def pyFStr : Option ExifValue → String
  | none => "None"
  | some v => pyStrVal v

/-- Python `str(x or '')`: the string of `x` when `x` is truthy, else `""`. -/
def pyStrOr : Option ExifValue → String
  | none => ""
  | some v => if pyTruthy v then pyStrVal v else ""

/-- An uncaught Python exception escaping the embedded code. -/
inductive PyExn where
  | attributeError
  | typeError
deriving DecidableEq

/-- Decidable equality for `Except`, used to evaluate the embedded
fallible code on concrete inputs. -/
def exceptDecEq {ε α : Type} [DecidableEq ε] [DecidableEq α] :
    (x y : Except ε α) → Decidable (x = y)
  | .error a, .error b =>
    match decEq a b with
    | isTrue h => isTrue (by rw [h])
    | isFalse h => isFalse (fun hc => h (by cases hc; rfl))
  | .error _, .ok _ => isFalse (fun hc => by cases hc)
  | .ok _, .error _ => isFalse (fun hc => by cases hc)
  | .ok a, .ok b =>
    match decEq a b with
    | isTrue h => isTrue (by rw [h])
    | isFalse h => isFalse (fun hc => h (by cases hc; rfl))

instance {ε α : Type} [DecidableEq ε] [DecidableEq α] : DecidableEq (Except ε α) :=
  exceptDecEq

/-! ### Tag resolver (`PhotoShutterInspector._get_tag_value`) -/

/-- Python `tag in exif` for the mapping. -/
def hasKey (exif : Exif) (tag : String) : Bool := exif.any (fun kv => kv.1 == tag)

/-- Python `exif[tag]` (first binding of the key). -/
def lookupKey (exif : Exif) (tag : String) : Option ExifValue :=
  exif.findSome? (fun kv => if kv.1 == tag then some kv.2 else none)

/-- `_get_tag_value`: for each candidate tag in order, first an exact key
lookup, otherwise a scan of the mapping for a key that ends with `":" ++ tag`
(case-sensitively) or equals the tag; `none` when nothing matches. -/
def get_tag_value (exif : Exif) (tags : List String) : Option ExifValue :=
  tags.findSome? (fun tag =>
    if hasKey exif tag then lookupKey exif tag
    else exif.findSome? (fun kv =>
      if endsWithB kv.1 (":" ++ tag) || kv.1 == tag then some kv.2 else none))

/-- The claim's reading of the resolver, for comparison: the suffix match is
done case-insensitively. -/
def getTagValueCaseless (exif : Exif) (tags : List String) : Option ExifValue :=
  tags.findSome? (fun tag =>
    if hasKey exif tag then lookupKey exif tag
    else exif.findSome? (fun kv =>
      if endsWithB (lowerStr kv.1) (":" ++ lowerStr tag) || kv.1 == tag then some kv.2 else none))

/-- The amended specification of the resolver, stated with first-match
searches: the value of the first candidate that matches a key exactly, or
else of the first mapping key ending in `":" ++ tag` (case-sensitively) or
equal to the tag. -/
def getTagValueSpec (exif : Exif) (tags : List String) : Option ExifValue :=
  tags.findSome? (fun tag =>
    match exif.find? (fun kv => kv.1 == tag) with
    | some kv => some kv.2
    | none => (exif.find? (fun kv => endsWithB kv.1 (":" ++ tag) || kv.1 == tag)).map (fun kv => kv.2))

/-! ### Shutter-count heuristic (`PhotoShutterInspector._find_shutter_count`) -/

/-- `SHUTTER_COUNT_TAGS`, verbatim, duplicates included. -/
def SHUTTER_COUNT_TAGS : List String :=
  ["ShutterCount", "ImageCount", "ShutterCounter",
   "Canon:ShutterCount", "Canon:ImageCount",
   "MakerNotes:ShutterCount", "MakerNotes:ImageCount",
   "ShutterCount", "Nikon:ShutterCount",
   "ImageCount", "ReleaseMode2", "Sony:ImageCount",
   "ShutterCount", "Pentax:ShutterCount",
   "ActuationCount", "ImageNumber"]

/-- The key test of `_find_shutter_count`: the lowered tag occurs in the
lowered key, or the lowered key ends with `":" ++` the last colon-component
of the lowered tag. -/
def shutterKeyMatches (tagPat key : String) : Bool :=
  let keyL := lowerStr key
  let tagL := lowerStr tagPat
  substrB tagL keyL || endsWithB keyL (":" ++ lastColonPart tagL)

/-- The value test of `_find_shutter_count`: a strictly positive `int` or
`float` is coerced with `int(·)`; a digit string is coerced with `int(·)`
(no positivity requirement); anything else is skipped. -/
def acceptShutterValue : ExifValue → Option Int
  | .vInt i => if 0 < i then some i else none
  | .vFloat q => if 0 < q then some (ratTrunc q) else none
  | .vStr s => if pyIsDigit s then some (strToNat s) else none

/-- `_find_shutter_count`: outer loop over `SHUTTER_COUNT_TAGS`, inner loop
over the mapping; the first key whose name matches and whose value is
accepted yields `(count, key)`; otherwise `(none, "none")`. -/
def find_shutter_count (exif : Exif) : Option Int × String :=
  match SHUTTER_COUNT_TAGS.findSome? (fun tagPat =>
          exif.findSome? (fun kv =>
            if shutterKeyMatches tagPat kv.1 then
              (acceptShutterValue kv.2).map (fun n => (n, kv.1))
            else none)) with
  | some nk => (some nk.1, nk.2)
  | none => (none, "none")

/-! ### Editing-software detector (`PhotoShutterInspector._check_editing_software`) -/

/-- `KNOWN_EDITORS`, verbatim. -/
def KNOWN_EDITORS : List String :=
  ["lightroom", "photoshop", "adobe", "camera raw",
   "capture one", "dxo", "luminar", "affinity",
   "gimp", "darktable", "rawtherapee",
   "snapseed", "vsco", "instagram", "telegram",
   "whatsapp", "facebook", "vkontakte", "vk",
   "messenger", "viber", "signal"]

/-- Python `' '.join(parts)`. -/
def joinSpace (parts : List String) : String :=
  String.mk ((parts.map String.data).intersperse [' ']).flatten

/-- `' '.join(filter(None, [software, processing])).lower()`: drops falsy
entries, then joins; a truthy non-string entry raises `TypeError`. -/
def joinSoftware (software processing : Option ExifValue) : Except PyExn String := do
  let kept := ([software, processing].filterMap id).filter pyTruthy
  let parts ← kept.mapM (fun v =>
    match v with
    | .vStr s => Except.ok s
    | _ => Except.error PyExn.typeError)
  return lowerStr (joinSpace parts)

/-- The warning produced for a detected editor. -/
def editorWarning (editor : String) : String :=
  "Обнаружен редактор/платформа: " ++ titleCase editor ++ ". Метаданные могут быть изменены или удалены."

/-- `_check_editing_software`: first editor of `KNOWN_EDITORS` occurring as a
substring of the joined, lowered software fields; returns the edited flag and
the warning. -/
def check_editing_software (software processing : Option ExifValue) :
    Except PyExn (Bool × Option String) := do
  let allSoftware ← joinSoftware software processing
  match KNOWN_EDITORS.find? (fun ed => substrB ed allSoftware) with
  | some ed => return (true, some (editorWarning ed))
  | none => return (false, none)

/-! ### File-number extraction (`PhotoShutterInspector._extract_file_number`)

The two regular expressions
`(?:IMG|DSC|_MG|_DSC)_?(\d+)` and `(\d{4,})\.(?:jpg|jpeg|cr2|cr3|nef|arw)`
are embedded directly: `re.search` with `re.IGNORECASE` takes the leftmost
position at which the pattern matches, alternatives in order, greedy digit
runs (a shorter greedy choice always fails on the following literal, so the
maximal run is the unique candidate at a position). -/

/-- Case-insensitive literal match of `pat` at the front of `cs`, returning
the rest of the input. -/
def ciDropLit : List Char → List Char → Option (List Char)
  | [], cs => some cs
  | _, [] => none
  | p :: ps, c :: cs => if c.toLower == p.toLower then ciDropLit ps cs else none

/-- Digit run at the front of the input. -/
def digitRun (cs : List Char) : List Char × List Char := cs.span Char.isDigit

/-- Numeric value of a digit run. -/
def digitsVal (ds : List Char) : Nat := ds.foldl (fun n c => n * 10 + (c.toNat - 48)) 0

/-- After one of the alternatives `IMG|DSC|_MG|_DSC` matched: `_?(\d+)` with
the regex backtracking of the optional underscore. -/
def pat1Tail : List Char → Option Nat
  | '_' :: rest =>
    let (ds, _) := digitRun rest
    if ds.isEmpty then none else some (digitsVal ds)
  | rest =>
    let (ds, _) := digitRun rest
    if ds.isEmpty then none else some (digitsVal ds)

/-- The first pattern tried at one position: alternatives in regex order,
each with the full continuation. -/
def pat1At (cs : List Char) : Option Nat :=
  (ciDropLit "IMG".data cs >>= pat1Tail) <|>
  (ciDropLit "DSC".data cs >>= pat1Tail) <|>
  (ciDropLit "_MG".data cs >>= pat1Tail) <|>
  (ciDropLit "_DSC".data cs >>= pat1Tail)

/-- Extensions of the second pattern of `_extract_file_number`, verbatim:
note that `orf`, `rw2` and `dng` are absent. -/
def PAT2_EXTENSIONS : List String := ["jpg", "jpeg", "cr2", "cr3", "nef", "arw"]

/-- The second pattern tried at one position: a digit run of length at least
four, a literal dot, then one of the extensions (no end anchor). -/
def pat2At (cs : List Char) : Option Nat :=
  let (ds, rest) := digitRun cs
  if 4 ≤ ds.length then
    match rest with
    | '.' :: after =>
      if PAT2_EXTENSIONS.any (fun e => (ciDropLit e.data after).isSome) then
        some (digitsVal ds)
      else none
    | _ => none
  else none

/-- Leftmost match of a per-position matcher: scan the suffixes left to
right. -/
def searchLeft (patAt : List Char → Option Nat) : List Char → Option Nat
  | [] => patAt []
  | c :: cs =>
    match patAt (c :: cs) with
    | some n => some n
    | none => searchLeft patAt cs

/-- `_extract_file_number`: first `re.search` with the `IMG/DSC` pattern,
then with the bare-digits pattern; `none` when neither matches. -/
def extract_file_number (filename : String) : Option Int :=
  match searchLeft pat1At filename.data with
  | some n => some (n : Int)
  | none =>
    match searchLeft pat2At filename.data with
    | some n => some (n : Int)
    | none => none

/-- The claim's reading of the second pattern: every supported extension,
including `orf`, `rw2` and `dng`. -/
def CLAIM_PAT2_EXTENSIONS : List String :=
  ["jpg", "jpeg", "cr2", "cr3", "nef", "arw", "orf", "rw2", "dng"]

/-- The second pattern as the claim states it. -/
def claimPat2At (cs : List Char) : Option Nat :=
  let (ds, rest) := digitRun cs
  if 4 ≤ ds.length then
    match rest with
    | '.' :: after =>
      if CLAIM_PAT2_EXTENSIONS.any (fun e => (ciDropLit e.data after).isSome) then
        some (digitsVal ds)
      else none
    | _ => none
  else none

/-- File-number extraction as the claim states it (extension list included
in full). -/
def extractFileNumberClaim (filename : String) : Option Int :=
  match searchLeft pat1At filename.data with
  | some n => some (n : Int)
  | none =>
    match searchLeft claimPat2At filename.data with
    | some n => some (n : Int)
    | none => none

/-- The amended specification of the extraction: the match at the first
position (left to right) where a pattern matches, pattern one before
pattern two. -/
def extractFileNumberSpec (filename : String) : Option Int :=
  match (List.range (filename.data.length + 1)).findSome?
      (fun i => pat1At (filename.data.drop i)) with
  | some n => some (n : Int)
  | none =>
    ((List.range (filename.data.length + 1)).findSome?
      (fun i => pat2At (filename.data.drop i))).map (fun n => (n : Int))

/-! ### Timestamp parsing (`datetime.strptime(s, "%Y:%m:%d %H:%M:%S")`)

`_strptime` compiles the format to a regular expression: `%Y` is exactly four
digits, the numeric fields are one- or two-digit numbers in their ranges
(`%S` admits 60 and 61 for leap seconds), a space in the format matches one
or more whitespace characters, and the whole string must be consumed.  The
`datetime` constructor then rejects year 0, a day beyond the month's length,
and seconds above 59. -/

/-- A parsed wall-clock timestamp. -/
structure DateTime6 where
  year : Nat
  month : Nat
  day : Nat
  hour : Nat
  minute : Nat
  second : Nat
deriving DecidableEq

/-- Gregorian leap year. -/
def isLeapYear (y : Nat) : Bool := (y % 4 == 0 && y % 100 != 0) || y % 400 == 0

/-- Length of a month. -/
def daysInMonth (y m : Nat) : Nat :=
  if m == 2 then (if isLeapYear y then 29 else 28)
  else if m == 4 || m == 6 || m == 9 || m == 11 then 30
  else 31

/-- One numeric field of the `strptime` regex: a digit run of length one or
two whose value lies in the allowed range; a longer run never matches
because the leftover digit meets the following literal. -/
def fieldRun (lo hi : Nat) (cs : List Char) : Option (Nat × List Char) :=
  let (ds, rest) := digitRun cs
  if ds.length == 1 || ds.length == 2 then
    let v := digitsVal ds
    if lo ≤ v && v ≤ hi then some (v, rest) else none
  else none

/-- `strptime(s, "%Y:%m:%d %H:%M:%S")` followed by the `datetime`
constructor's validation; `none` is Python's `ValueError`. -/
def parseExifDT (s : String) : Option DateTime6 := do
  let (yd, r1) := digitRun s.data
  if yd.length != 4 then failure
  let y := digitsVal yd
  let ':' :: r2 := r1 | failure
  let (m, r3) ← fieldRun 1 12 r2
  let ':' :: r4 := r3 | failure
  let (d, r5) ← fieldRun 1 31 r4
  let (ws, r6) := r5.span Char.isWhitespace
  if ws.isEmpty then failure
  let (hh, r7) ← fieldRun 0 23 r6
  let ':' :: r8 := r7 | failure
  let (mi, r9) ← fieldRun 0 59 r8
  let ':' :: r10 := r9 | failure
  let (ss, r11) ← fieldRun 0 61 r10
  if !r11.isEmpty then failure
  if y == 0 || d > daysInMonth y m || ss > 59 then failure
  return ⟨y, m, d, hh, mi, ss⟩

/-- Day number of a Gregorian date (days since 1970-01-01, the standard
civil-from-days computation); only used through differences. -/
def daysFromCivil (t : DateTime6) : Int :=
  let y : Int := if t.month ≤ 2 then (t.year : Int) - 1 else (t.year : Int)
  let era : Int := y / 400
  let yoe : Int := y - era * 400
  let mp : Int := if 2 < t.month then (t.month : Int) - 3 else (t.month : Int) + 9
  let doy : Int := (153 * mp + 2) / 5 + (t.day : Int) - 1
  let doe : Int := yoe * 365 + yoe / 4 - yoe / 100 + doy
  era * 146097 + doe - 719468

/-- Seconds-since-epoch of a timestamp; `(dt2 - dt1).total_seconds()` is the
difference of these numbers. -/
def dtToSecs (t : DateTime6) : Int :=
  daysFromCivil t * 86400 + (t.hour : Int) * 3600 + (t.minute : Int) * 60 + (t.second : Int)

/-- The stripping applied before parsing:
`s.split('.')[0].split('+')[0]` — the prefix before the first dot, then the
prefix before the first plus sign. -/
def stripTS (s : String) : String :=
  String.mk ((s.data.takeWhile (fun c => c != '.')).takeWhile (fun c => c != '+'))

/-! ### The `FileAnalysis` record and `analyze_file`

Fields resolved from the mapping keep the loosely typed value
(`Option ExifValue`), exactly as the Python dataclass receives arbitrary
scalars; defaults are the dataclass defaults.  The filesystem facts and the
outcome of the external `exiftool` invocation are inputs (`AnalyzeInput`),
since the backend is an external collaborator. -/

/-- The analysis record of one file (`@dataclass FileAnalysis`). -/
structure FileAnalysis where
  file_name : String
  file_path : String
  file_type : String
  file_size_bytes : Nat
  real_file_type : Option ExifValue := none
  mime_type : Option ExifValue := none
  file_type_mismatch : Bool := false
  camera_make : Option ExifValue := none
  camera_model : Option ExifValue := none
  lens_model : Option ExifValue := none
  serial_number : Option ExifValue := none
  internal_serial : Option ExifValue := none
  firmware : Option ExifValue := none
  datetime_original : Option ExifValue := none
  datetime_digitized : Option ExifValue := none
  file_modify_date : Option ExifValue := none
  shutter_count : Option Int := none
  shutter_count_source : String := "none"
  shutter_count_present : Bool := false
  file_number_hint : Option Int := none
  file_number_warning : String :=
    "Номер файла НЕ равен пробегу затвора; может сбрасываться, зависит от карты/настроек"
  directory_number : Option ExifValue := none
  image_unique_id : Option ExifValue := none
  software : Option ExifValue := none
  processing_software : Option ExifValue := none
  not_out_of_camera : Bool := false
  editing_detected_warning : Option String := none
  iso : Option ExifValue := none
  aperture : Option String := none
  shutter_speed : Option String := none
  focal_length : Option String := none
  image_width : Option ExifValue := none
  image_height : Option ExifValue := none
  exif_integrity_notes : List String := []
  errors : List String := []
  raw_exif : Option Exif := none
deriving DecidableEq

/-- What `analyze_file` reads from the world: the file's name, absolute
path, existence and size, and the outcome of the external metadata backend
(`_run_exiftool`), which either yields a mapping or fails with a message
(process error, timeout, or malformed JSON). -/
structure AnalyzeInput where
  fileName : String
  absPath : String
  fileExists : Bool
  sizeBytes : Nat
  backend : Except String Exif
deriving DecidableEq

/-- `pathlib`'s `Path.suffix`: from the last dot of the final component,
when that dot is neither first nor last. -/
def pathSuffix (name : String) : String :=
  let cs := name.data
  match cs.reverse.findIdx? (fun c => c == '.') with
  | none => ""
  | some j =>
    let i := cs.length - 1 - j
    if 0 < i && i < cs.length - 1 then String.mk (cs.drop i) else ""

/-- Python `s.lstrip('.')`. -/
def stripLeadingDots (s : String) : String :=
  String.mk (s.data.dropWhile (fun c => c == '.'))

/-- `SUPPORTED_EXTENSIONS`, verbatim. -/
def SUPPORTED_EXTENSIONS : List String :=
  [".jpg", ".jpeg", ".cr2", ".cr3", ".nef", ".arw", ".orf", ".rw2", ".dng"]

/-- The `expected_types` table of `analyze_file`. -/
def expectedTypes : List (String × List String) :=
  [("cr2", ["CR2"]), ("cr3", ["CR3"]), ("jpg", ["JPEG", "JPG"]),
   ("jpeg", ["JPEG", "JPG"]), ("nef", ["NEF"]), ("arw", ["ARW"]),
   ("orf", ["ORF"]), ("rw2", ["RW2"]), ("dng", ["DNG"])]

/-- Lookup in the `expected_types` table. -/
def expectedTypesFor (ext : String) : Option (List String) :=
  (expectedTypes.find? (fun kv => kv.1 == ext)).map (fun kv => kv.2)

/-- The extension/content mismatch check of `analyze_file`: when the
resolved real file type is truthy, Python calls `.upper()` on it — an
`AttributeError` when the value is not a string — and flags a mismatch when
the result is not among the expected type names. -/
def mismatchStep (a : FileAnalysis) : Except PyExn FileAnalysis :=
  let ext := lowerStr a.file_type
  match expectedTypesFor ext with
  | none => .ok a
  | some allowed =>
    match a.real_file_type with
    | none => .ok a
    | some v =>
      if pyTruthy v then
        match v with
        | .vStr s =>
          if allowed.contains (upperStr s) then .ok a
          else .ok { a with
            file_type_mismatch := true,
            errors := a.errors ++
              ["🚨 ВНИМАНИЕ: Расширение файла (" ++ upperStr ext ++
               ") НЕ соответствует реальному типу (" ++ s ++ ")! Это не настоящий " ++
               upperStr ext ++ " файл."],
            exif_integrity_notes := a.exif_integrity_notes ++
              ["Файл имеет расширение ." ++ ext ++ ", но на самом деле это " ++ s ++
               " (" ++ pyFStr a.mime_type ++ ")"] }
        | _ => .error PyExn.attributeError
      else .ok a

/-- Camera-identity and timestamp resolution of `analyze_file`. -/
def cameraStep (a : FileAnalysis) (exif : Exif) : FileAnalysis :=
  { a with
    camera_make := get_tag_value exif ["Make", "EXIF:Make"],
    camera_model := get_tag_value exif ["Model", "EXIF:Model", "Camera Model Name"],
    lens_model := get_tag_value exif ["LensModel", "Lens", "LensType", "EXIF:LensModel"],
    serial_number := get_tag_value exif
      ["SerialNumber", "CameraSerialNumber", "InternalSerialNumber",
       "Canon:SerialNumber", "EXIF:SerialNumber"],
    internal_serial := get_tag_value exif ["InternalSerialNumber", "Canon:InternalSerialNumber"],
    firmware := get_tag_value exif ["Firmware", "FirmwareVersion", "Software"],
    datetime_original := get_tag_value exif
      ["DateTimeOriginal", "EXIF:DateTimeOriginal", "CreateDate"],
    datetime_digitized := get_tag_value exif ["DateTimeDigitized", "EXIF:DateTimeDigitized"],
    file_modify_date := get_tag_value exif ["FileModifyDate", "File:FileModifyDate"] }

/-- The integrity note appended when no shutter count was found. -/
def shutterAbsentNote : String :=
  "⚠️ Shutter count в EXIF отсутствует / Shutter count in EXIF not present; cannot be determined from this file. Для Canon это частое явление."

/-- The shutter-count step of `analyze_file`. -/
def shutterStep (a : FileAnalysis) (exif : Exif) : FileAnalysis :=
  let sc := find_shutter_count exif
  let a := { a with
    shutter_count := sc.1,
    shutter_count_source := sc.2,
    shutter_count_present := sc.1.isSome }
  if a.shutter_count_present then a
  else { a with exif_integrity_notes := a.exif_integrity_notes ++ [shutterAbsentNote] }

/-- The file-number step of `analyze_file`: the filename-derived hint,
overridden by a resolved counter field when that value is truthy and
numeric (`if exif_file_num and isinstance(exif_file_num, (int, float))`). -/
def fileNumberStep (a : FileAnalysis) (fileName : String) (exif : Exif) : FileAnalysis :=
  let a := { a with file_number_hint := extract_file_number fileName }
  match get_tag_value exif ["FileNumber", "Canon:FileNumber", "FileIndex"] with
  | some (.vInt i) => if i != 0 then { a with file_number_hint := some i } else a
  | some (.vFloat q) => if q != 0 then { a with file_number_hint := some (ratTrunc q) } else a
  | _ => a

/-- Directory number, unique id and the two software fields. -/
def miscStep (a : FileAnalysis) (exif : Exif) : FileAnalysis :=
  { a with
    directory_number := get_tag_value exif ["DirectoryIndex", "Canon:DirectoryIndex"],
    image_unique_id := get_tag_value exif ["ImageUniqueID", "EXIF:ImageUniqueID"],
    software := get_tag_value exif ["Software", "EXIF:Software"],
    processing_software := get_tag_value exif ["ProcessingSoftware", "EXIF:ProcessingSoftware"] }

/-- The editing-detector step of `analyze_file`: sets the flag and the
warning, and appends the warning to the integrity notes when set. -/
def editingStep (a : FileAnalysis) : Except PyExn FileAnalysis := do
  let ew ← check_editing_software a.software a.processing_software
  match ew with
  | (true, some w) =>
    return { a with not_out_of_camera := true, editing_detected_warning := some w,
                    exif_integrity_notes := a.exif_integrity_notes ++ [w] }
  | (edited, warning) =>
    return { a with not_out_of_camera := edited, editing_detected_warning := warning }

/-- The shooting-parameter step of `analyze_file`. -/
def techStep (a : FileAnalysis) (exif : Exif) : FileAnalysis :=
  { a with
    iso := get_tag_value exif ["ISO", "EXIF:ISO"],
    aperture := some (pyStrOr (get_tag_value exif ["FNumber", "Aperture", "ApertureValue"])),
    shutter_speed := some (pyStrOr (get_tag_value exif
      ["ExposureTime", "ShutterSpeed", "ShutterSpeedValue"])),
    focal_length := some (pyStrOr (get_tag_value exif ["FocalLength", "EXIF:FocalLength"])),
    image_width := get_tag_value exif ["ImageWidth", "ExifImageWidth"],
    image_height := get_tag_value exif ["ImageHeight", "ExifImageHeight"] }

/-- The resize note. -/
def resizeNote : String :=
  "⚠️ Размер изображения отличается от оригинала — возможен экспорт/ресайз"

/-- The resize and XMP integrity checks of `analyze_file`. -/
def integrityStep (a : FileAnalysis) (exif : Exif) : FileAnalysis :=
  let ow := get_tag_value exif ["OriginalImageWidth"]
  let oh := get_tag_value exif ["OriginalImageHeight"]
  let a :=
    if truthyOpt ow && truthyOpt oh then
      if truthyOpt a.image_width &&
         (!pyEqOpt ow a.image_width || !pyEqOpt oh a.image_height) then
        { a with exif_integrity_notes := a.exif_integrity_notes ++ [resizeNote] }
      else a
    else a
  let xmp := get_tag_value exif ["XMP:CreatorTool", "CreatorTool"]
  if truthyOpt xmp then
    { a with exif_integrity_notes := a.exif_integrity_notes ++
        ["XMP CreatorTool: " ++ pyFStr xmp] }
  else a

/-- `analyze_file`: the record construction, the unsupported-extension
short circuit, the guarded backend call, and the resolution pipeline.
An uncaught Python exception of the pipeline is an `Except.error`. -/
def analyze_file (inp : AnalyzeInput) (includeRawExif : Bool) : Except PyExn FileAnalysis :=
  let sfx := pathSuffix inp.fileName
  let a0 : FileAnalysis := {
    file_name := inp.fileName,
    file_path := inp.absPath,
    file_type := stripLeadingDots (lowerStr sfx),
    file_size_bytes := if inp.fileExists then inp.sizeBytes else 0 }
  if !(SUPPORTED_EXTENSIONS.contains (lowerStr sfx)) then
    .ok { a0 with errors := a0.errors ++ ["Неподдерживаемый тип файла: " ++ sfx] }
  else
    match inp.backend with
    | .error e => .ok { a0 with errors := a0.errors ++ ["Ошибка чтения EXIF: " ++ e] }
    | .ok exif => do
      let a := if includeRawExif then { a0 with raw_exif := some exif } else a0
      let a := { a with
        real_file_type := get_tag_value exif ["FileType", "File:FileType"],
        mime_type := get_tag_value exif ["MIMEType", "File:MIMEType"] }
      let a ← mismatchStep a
      let a := cameraStep a exif
      let a := shutterStep a exif
      let a := fileNumberStep a inp.fileName exif
      let a := miscStep a exif
      let a ← editingStep a
      let a := techStep a exif
      let a := integrityStep a exif
      return a

/-! ### The comparator (`PhotoShutterInspector.compare_files`)

`compare_files` first analyzes both files, then combines the two records;
the combination is embedded as `compare_records` over two arbitrary
records.  The time-sequence check calls `.split` on the raw
`datetime_original` values — an uncaught `AttributeError` when a truthy
value is not a string (`except ValueError` does not catch it), so the
combination is fallible. -/

/-- The three-valued verdict (`VerificationResult`). -/
inductive Verdict where
  | LIKELY_SAME_CAMERA
  | INCONCLUSIVE
  | SUSPICIOUS
deriving DecidableEq

/-- The comparison record (`@dataclass ComparisonResult`). -/
structure ComparisonResult where
  file1 : String
  file2 : String
  verdict : Verdict
  reasons : List String
  same_camera_model : Bool
  same_serial_number : Option Bool
  same_firmware : Option Bool
  time_sequence_valid : Option Bool
  file_number_sequence_valid : Option Bool
  time_difference_seconds : Option ℚ
deriving DecidableEq

/-- `same_model` of `compare_files`: make equal, model equal (Python `==`,
where `None == None` holds), and the first file's make `is not None`. -/
def sameModelB (a1 a2 : FileAnalysis) : Bool :=
  pyEqOpt a1.camera_make a2.camera_make &&
  pyEqOpt a1.camera_model a2.camera_model &&
  a1.camera_make.isSome

/-- The negative model-mismatch evidence string. -/
def modelMismatchMsg (a1 a2 : FileAnalysis) : String :=
  "✗ РАЗНЫЕ модели: " ++ pyFStr a1.camera_model ++ " vs " ++ pyFStr a2.camera_model

/-- Whether the model check forces the verdict to SUSPICIOUS: the models
are not `same_model` and both are truthy. -/
def modelMismatchFires (a1 a2 : FileAnalysis) : Bool :=
  !sameModelB a1 a2 && truthyOpt a1.camera_model && truthyOpt a2.camera_model

/-- The positive same-model evidence string. -/
def sameModelMsg (a1 : FileAnalysis) : String :=
  "✓ Одинаковая модель: " ++ pyFStr a1.camera_make ++ " " ++ pyFStr a1.camera_model

/-- The model check: positive evidence, negative evidence forcing
SUSPICIOUS, or nothing. -/
def modelStep (a1 a2 : FileAnalysis) : Bool × List String × Verdict :=
  let sm := sameModelB a1 a2
  if sm then
    (sm, [sameModelMsg a1], Verdict.INCONCLUSIVE)
  else if truthyOpt a1.camera_model && truthyOpt a2.camera_model then
    (sm, [modelMismatchMsg a1 a2], Verdict.SUSPICIOUS)
  else (sm, [], Verdict.INCONCLUSIVE)

/-- The negative serial-mismatch evidence string. -/
def serialMismatchMsg (a1 a2 : FileAnalysis) : String :=
  "✗ РАЗНЫЕ серийные номера: " ++ pyFStr a1.serial_number ++ " vs " ++ pyFStr a2.serial_number

/-- The neutral note when a serial number is missing. -/
def serialMissingMsg : String := "⚠ Серийный номер не найден в одном или обоих файлах"

/-- The positive same-serial evidence string. -/
def sameSerialMsg (a1 : FileAnalysis) : String :=
  "✓ Одинаковый серийный номер: " ++ pyFStr a1.serial_number

/-- The serial check: assessed only when both serials are truthy; unequal
serials force SUSPICIOUS; a missing serial appends a neutral note. -/
def serialStep (a1 a2 : FileAnalysis) (rs : List String) (v : Verdict) :
    Option Bool × List String × Verdict :=
  if truthyOpt a1.serial_number && truthyOpt a2.serial_number then
    if pyEqOpt a1.serial_number a2.serial_number then
      (some true, rs ++ [sameSerialMsg a1], v)
    else
      (some false, rs ++ [serialMismatchMsg a1 a2], Verdict.SUSPICIOUS)
  else (none, rs ++ [serialMissingMsg], v)

/-- The positive same-firmware note. -/
def sameFirmwareMsg (a1 : FileAnalysis) : String :=
  "✓ Одинаковая прошивка: " ++ pyFStr a1.firmware

/-- The cautionary differing-firmware note. -/
def diffFirmwareMsg (a1 a2 : FileAnalysis) : String :=
  "⚠ Разные прошивки: " ++ pyFStr a1.firmware ++ " vs " ++ pyFStr a2.firmware ++
    " (может быть обновление)"

/-- The firmware check: notes only, never a verdict change. -/
def firmwareStep (a1 a2 : FileAnalysis) (rs : List String) : Option Bool × List String :=
  if truthyOpt a1.firmware && truthyOpt a2.firmware then
    if pyEqOpt a1.firmware a2.firmware then
      (some true, rs ++ [sameFirmwareMsg a1])
    else
      (some false, rs ++ [diffFirmwareMsg a1 a2])
  else (none, rs)

/-- The neutral note for an unparseable timestamp. -/
def timeParseFailMsg : String := "⚠ Не удалось разобрать дату съёмки"

/-- The truthy `datetime_original` value as a string;
a truthy non-string raises `AttributeError` at `.split`. -/
def asPyStr : Option ExifValue → Except PyExn String
  | some (.vStr s) => .ok s
  | _ => .error PyExn.attributeError

/-- The positive time-sequence evidence string. -/
def timeForwardMsg (diff : Int) : String :=
  "✓ Корректная последовательность времени: файл 2 снят позже на " ++
    natToStr diff.natAbs ++ " сек"

/-- The cautionary reversed-time evidence string. -/
def timeBackwardMsg (diff : Int) : String :=
  "⚠ Обратный порядок: файл 2 снят РАНЬШЕ на " ++ natToStr diff.natAbs ++ " сек"

/-- The time-sequence check: assessed only when both raw values are truthy;
the first value is stripped and parsed before the second is touched
(Python evaluates the two `strptime` statements in order, and only
`ValueError` is caught). -/
def timeStep (d1 d2 : Option ExifValue) (rs : List String) :
    Except PyExn (Option ℚ × Option Bool × List String) := do
  if truthyOpt d1 && truthyOpt d2 then
    let s1 ← asPyStr d1
    match parseExifDT (stripTS s1) with
    | none => return (none, none, rs ++ [timeParseFailMsg])
    | some t1 =>
      let s2 ← asPyStr d2
      match parseExifDT (stripTS s2) with
      | none => return (none, none, rs ++ [timeParseFailMsg])
      | some t2 =>
        let diff : Int := dtToSecs t2 - dtToSecs t1
        if 0 ≤ diff then
          return (some (diff : ℚ), some true, rs ++ [timeForwardMsg diff])
        else
          return (some (diff : ℚ), some false, rs ++ [timeBackwardMsg diff])
  else
    return (none, none, rs)

/-- The increasing-file-number note. -/
def fileSeqUpMsg (n1 n2 : Int) : String :=
  "✓ Номер файла увеличивается: " ++ intToStr n1 ++ " → " ++ intToStr n2

/-- The equal-file-number note. -/
def fileSeqEqMsg (n1 : Int) : String := "⚠ Одинаковые номера файлов: " ++ intToStr n1

/-- The decreasing-file-number note. -/
def fileSeqDownMsg (n1 n2 : Int) : String :=
  "⚠ Номер файла уменьшается: " ++ intToStr n1 ++ " → " ++ intToStr n2 ++
    " (возможен сброс счётчика)"

/-- The file-number-sequence check: assessed only when both hints are
truthy (a hint of 0 is falsy); increase, equality, or decrease. -/
def fileSeqStep (h1 h2 : Option Int) (rs : List String) : Option Bool × List String :=
  match h1, h2 with
  | some n1, some n2 =>
    if n1 != 0 && n2 != 0 then
      if n1 < n2 then (some true, rs ++ [fileSeqUpMsg n1 n2])
      else if n2 == n1 then (none, rs ++ [fileSeqEqMsg n1])
      else (some false, rs ++ [fileSeqDownMsg n1 n2])
    else (none, rs)
  | _, _ => (none, rs)

/-- The processed-files note of the comparator. -/
def editedFilesMsg : String :=
  "⚠ Один или оба файла были обработаны — метаданные могут быть неполными"

/-- The editing note of the comparator. -/
def editNoteStep (a1 a2 : FileAnalysis) (rs : List String) : List String :=
  if a1.not_out_of_camera || a2.not_out_of_camera then rs ++ [editedFilesMsg]
  else rs

/-- The caveat appended on the reduced-confidence LIKELY path. -/
def noSerialCaveat : String := "Примечание: без серийного номера — вывод менее надёжен"

/-- The final verdict resolution: applied only when the verdict was not
already forced to SUSPICIOUS. -/
def finalStep (v : Verdict) (sm : Bool) (ss tsv fsv : Option Bool) (rs : List String) :
    Verdict × List String :=
  if v == Verdict.SUSPICIOUS then (v, rs)
  else if ss == some true && sm then (Verdict.LIKELY_SAME_CAMERA, rs)
  else if sm && tsv == some true && fsv == some true then
    (Verdict.LIKELY_SAME_CAMERA, rs ++ [noSerialCaveat])
  else (Verdict.INCONCLUSIVE, rs)

/-- The pure combination part of `compare_files`, over the two analysis
records. -/
def compare_records (a1 a2 : FileAnalysis) : Except PyExn ComparisonResult := do
  let (sm, rs1, v1) := modelStep a1 a2
  let (ss, rs2, v2) := serialStep a1 a2 rs1 v1
  let (sf, rs3) := firmwareStep a1 a2 rs2
  let (td, tsv, rs4) ← timeStep a1.datetime_original a2.datetime_original rs3
  let (fsv, rs5) := fileSeqStep a1.file_number_hint a2.file_number_hint rs4
  let rs6 := editNoteStep a1 a2 rs5
  let (vf, rs7) := finalStep v2 sm ss tsv fsv rs6
  return {
    file1 := a1.file_name, file2 := a2.file_name,
    verdict := vf, reasons := rs7,
    same_camera_model := sm, same_serial_number := ss, same_firmware := sf,
    time_sequence_valid := tsv, file_number_sequence_valid := fsv,
    time_difference_seconds := td }

/-- The override condition of the file-number step, as a partial coercion:
`some` exactly when the value is numeric and truthy, carrying Python's
`int(·)` of it. -/
def numericOverride : ExifValue → Option Int
  | .vInt i => if i != 0 then some i else none
  | .vFloat q => if q != 0 then some (ratTrunc q) else none
  | .vStr _ => none

/-- A `datetime_original` value that cannot leak an `AttributeError` out of
the comparator's time check: absent, falsy, or a string.  The record fields
of an analysis are arbitrary scalars, and `compare_files` calls `.split` on
a truthy one, so a truthy non-string there would escape as an exception;
favourable or string-valued timestamps (the data model's timestamps are
optional strings) satisfy this. -/
def dtSafe : Option ExifValue → Bool
  | some (.vInt i) => i == 0
  | some (.vFloat q) => q == 0
  | _ => true

/-- Whether the serial check forces SUSPICIOUS. -/
def serialMismatchFires (a1 a2 : FileAnalysis) : Bool :=
  truthyOpt a1.serial_number && truthyOpt a2.serial_number &&
    !pyEqOpt a1.serial_number a2.serial_number

/-- The failing input of claim C2: a supported file whose backend mapping
carries a non-string scalar under `FileType`. -/
def c2FailingInput : AnalyzeInput :=
  { fileName := "photo.jpg", absPath := "/photos/photo.jpg", fileExists := true,
    sizeBytes := 100, backend := .ok [("FileType", .vInt 5)] }

/-- An input whose backend invocation failed (for instance with a timeout
message). -/
def c2BackendErrorInput : AnalyzeInput :=
  { fileName := "photo.jpg", absPath := "/photos/photo.jpg", fileExists := true,
    sizeBytes := 100, backend := .error "ExifTool timeout for /photos/photo.jpg" }

/-- Concrete record with only identity fields, used by the comparator
witnesses. -/
def cmpBase : FileAnalysis :=
  { file_name := "a.jpg", file_path := "/a.jpg", file_type := "jpg", file_size_bytes := 0 }

/-- A record reporting a Canon EOS 200D. -/
def recCanon : FileAnalysis :=
  { cmpBase with camera_make := some (.vStr "Canon"),
                 camera_model := some (.vStr "Canon EOS 200D") }

/-- A record reporting a Nikon D750, with otherwise favourable signals. -/
def recNikon : FileAnalysis :=
  { cmpBase with camera_make := some (.vStr "NIKON"),
                 camera_model := some (.vStr "NIKON D750"),
                 file_number_hint := some 4321,
                 datetime_original := some (.vStr "2024:01:15 14:35:00") }

/-- Records with equal make and model and differing truthy serials. -/
def recSerialA : FileAnalysis :=
  { cmpBase with camera_make := some (.vStr "Canon"),
                 camera_model := some (.vStr "Canon EOS 200D"),
                 serial_number := some (.vStr "101") }

/-- The counterpart of `recSerialA` with a different serial. -/
def recSerialB : FileAnalysis :=
  { cmpBase with camera_make := some (.vStr "Canon"),
                 camera_model := some (.vStr "Canon EOS 200D"),
                 serial_number := some (.vStr "202") }

/-- Records with equal make/model and the same serial, with unfavourable
other fields (different firmware, reversed timestamps, decreasing file
numbers, an edited flag). -/
def recSameSerialA : FileAnalysis :=
  { cmpBase with camera_make := some (.vStr "Canon"),
                 camera_model := some (.vStr "Canon EOS 200D"),
                 serial_number := some (.vStr "12345"),
                 firmware := some (.vStr "1.0.1"),
                 datetime_original := some (.vStr "2024:01:15 14:35:00"),
                 file_number_hint := some 4321,
                 not_out_of_camera := true }

/-- The counterpart of `recSameSerialA`: same serial, otherwise
unfavourable signals. -/
def recSameSerialB : FileAnalysis :=
  { cmpBase with camera_make := some (.vStr "Canon"),
                 camera_model := some (.vStr "Canon EOS 200D"),
                 serial_number := some (.vStr "12345"),
                 firmware := some (.vStr "1.0.2"),
                 datetime_original := some (.vStr "2024:01:15 14:30:00"),
                 file_number_hint := some 17 }

/-- A record whose `datetime_original` carries a negative-offset timezone
suffix. -/
def recTzA : FileAnalysis :=
  { cmpBase with datetime_original := some (.vStr "2024:01:15 14:30:00-05:00") }

/-- Five minutes after `recTzA`, same negative-offset suffix. -/
def recTzB : FileAnalysis :=
  { cmpBase with datetime_original := some (.vStr "2024:01:15 14:35:00-05:00") }

/-- A record with the parseable timestamp of the claim's example. -/
def recT300A : FileAnalysis :=
  { cmpBase with datetime_original := some (.vStr "2024:01:15 14:30:00") }

/-- Five minutes after `recT300A`. -/
def recT300B : FileAnalysis :=
  { cmpBase with datetime_original := some (.vStr "2024:01:15 14:35:00") }

/-- The failing input of claim C9: the filename yields hint 1234, and the
mapping carries the numeric counter value `0` — falsy, so the override is
skipped. -/
def c9ZeroCounterInput : AnalyzeInput :=
  { fileName := "IMG_1234.CR2", absPath := "/photos/IMG_1234.CR2", fileExists := true,
    sizeBytes := 100, backend := .ok [("FileNumber", .vInt 0)] }

/-- Input for the C9 witness: filename hint 1234, numeric counter 777. -/
def c9OverrideInput : AnalyzeInput :=
  { fileName := "IMG_1234.CR2", absPath := "/photos/IMG_1234.CR2", fileExists := true,
    sizeBytes := 100, backend := .ok [("FileNumber", .vInt 777)] }

/-- Input for the C10 witness: a supported file whose `Software` field
names an editor. -/
def c10EditedInput : AnalyzeInput :=
  { fileName := "photo.jpg", absPath := "/photos/photo.jpg", fileExists := true,
    sizeBytes := 100,
    backend := .ok [("File:FileType", .vStr "JPEG"),
                    ("EXIF:Software", .vStr "Adobe Photoshop Lightroom 6.0")] }

/-! ### Helper lemmas -/

/-- A first-match lookup by a predicate equals `find?` followed by the
projection. -/
theorem findSome?_guard_eq_find? (p : String × ExifValue → Bool) (l : Exif) :
    l.findSome? (fun kv => if p kv then some kv.2 else none) =
      (l.find? p).map (fun kv => kv.2) := by
  induction l with
  | nil => rfl
  | cons kv t ih =>
    by_cases hp : p kv
    · simp [List.findSome?_cons, List.find?_cons, hp]
    · simp [List.findSome?_cons, List.find?_cons, hp, ih]

/-- `lookupKey` is `find?` by key equality followed by the projection. -/
theorem lookupKey_eq_find? (exif : Exif) (tag : String) :
    lookupKey exif tag = (exif.find? (fun kv => kv.1 == tag)).map (fun kv => kv.2) :=
  findSome?_guard_eq_find? _ exif

/-- `hasKey` holds exactly when `find?` by key equality succeeds. -/
theorem hasKey_eq_isSome_find? (exif : Exif) (tag : String) :
    hasKey exif tag = (exif.find? (fun kv => kv.1 == tag)).isSome := by
  induction exif with
  | nil => rfl
  | cons kv t ih =>
    by_cases hp : (kv.1 == tag)
    · simp [hasKey, List.find?_cons, hp]
    · simpa [hasKey, List.find?_cons, hp] using ih

/-- A scan of the suffixes equals the first matching position of the
left-to-right position scan. -/
theorem searchLeft_eq_firstPos (patAt : List Char → Option Nat) (cs : List Char) :
    searchLeft patAt cs =
      (List.range (cs.length + 1)).findSome? (fun i => patAt (cs.drop i)) := by
  induction cs with
  | nil =>
    cases h : patAt [] <;>
      simp [searchLeft, List.range_succ_eq_map, List.findSome?_cons, h]
  | cons c t ih =>
    rw [searchLeft, List.length_cons, List.range_succ_eq_map, List.findSome?_cons]
    simp only [List.drop_zero]
    cases h : patAt (c :: t) with
    | some n => simp [h]
    | none =>
      simp only [h, List.findSome?_map]
      rw [ih]
      congr 1

/-- An accepted shutter value is never negative: a positive `int` stays
positive, a positive `float` truncates to a natural number, a digit string
parses to a natural number. -/
theorem acceptShutterValue_nonneg (v : ExifValue) (n : Int)
    (h : acceptShutterValue v = some n) : 0 ≤ n := by
  cases v with
  | vInt i =>
    by_cases hi : (0 : Int) < i
    · simp only [acceptShutterValue, if_pos hi, Option.some.injEq] at h
      omega
    · simp [acceptShutterValue, hi] at h
  | vFloat q =>
    by_cases hq : (0 : ℚ) < q
    · simp only [acceptShutterValue, if_pos hq, Option.some.injEq] at h
      rw [← h]
      unfold ratTrunc
      rw [if_neg (not_lt.mpr (le_of_lt hq))]
      exact Rat.le_floor.mpr (by exact_mod_cast le_of_lt hq)
    · simp [acceptShutterValue, hq] at h
  | vStr s =>
    by_cases hs : pyIsDigit s = true
    · simp only [acceptShutterValue, if_pos hs, Option.some.injEq] at h
      rw [← h]
      exact Int.natCast_nonneg _
    · simp [acceptShutterValue, hs] at h

/-- A truthy safe timestamp value is a non-empty string. -/
theorem truthy_dtSafe_vStr {d : Option ExifValue}
    (h1 : truthyOpt d = true) (h2 : dtSafe d = true) :
    ∃ s, d = some (ExifValue.vStr s) ∧ (s != "") = true := by
  match d with
  | none => exact absurd h1 (by simp [truthyOpt])
  | some (.vInt i) =>
    simp only [dtSafe, beq_iff_eq] at h2
    simp [truthyOpt, pyTruthy, h2] at h1
  | some (.vFloat q) =>
    simp only [dtSafe, beq_iff_eq] at h2
    simp [truthyOpt, pyTruthy, h2] at h1
  | some (.vStr s) => exact ⟨s, rfl, h1⟩

/-- `serialStep` only appends to the evidence list. -/
theorem serialStep_mem {a1 a2 : FileAnalysis} {rs : List String} {v : Verdict}
    {out : Option Bool × List String × Verdict} (h : serialStep a1 a2 rs v = out)
    {x : String} (hx : x ∈ rs) : x ∈ out.2.1 := by
  rw [← h]; unfold serialStep
  split
  · split <;> simp [List.mem_append, hx]
  · simp [List.mem_append, hx]

/-- `serialStep` never downgrades a SUSPICIOUS verdict. -/
theorem serialStep_keeps_suspicious {a1 a2 : FileAnalysis} {rs : List String}
    {out : Option Bool × List String × Verdict}
    (h : serialStep a1 a2 rs Verdict.SUSPICIOUS = out) : out.2.2 = Verdict.SUSPICIOUS := by
  rw [← h]; unfold serialStep
  split
  · split <;> rfl
  · rfl

/-- `firmwareStep` only appends to the evidence list. -/
theorem firmwareStep_mem {a1 a2 : FileAnalysis} {rs : List String}
    {out : Option Bool × List String} (h : firmwareStep a1 a2 rs = out)
    {x : String} (hx : x ∈ rs) : x ∈ out.2 := by
  rw [← h]; unfold firmwareStep
  split
  · split <;> simp [List.mem_append, hx]
  · simpa using hx

/-- `fileSeqStep` only appends to the evidence list. -/
theorem fileSeqStep_mem {h1 h2 : Option Int} {rs : List String}
    {out : Option Bool × List String} (h : fileSeqStep h1 h2 rs = out)
    {x : String} (hx : x ∈ rs) : x ∈ out.2 := by
  rw [← h]; unfold fileSeqStep
  split
  · split
    · split <;> [skip; split] <;> simp [List.mem_append, hx]
    · simpa using hx
  · simpa using hx

/-- `editNoteStep` only appends to the evidence list. -/
theorem editNoteStep_mem (a1 a2 : FileAnalysis) {rs : List String}
    {x : String} (hx : x ∈ rs) : x ∈ editNoteStep a1 a2 rs := by
  unfold editNoteStep
  split <;> simp [List.mem_append, hx]

/-- `finalStep` only appends to the evidence list. -/
theorem finalStep_mem {v : Verdict} {sm : Bool} {ss tsv fsv : Option Bool}
    {rs : List String} {out : Verdict × List String}
    (h : finalStep v sm ss tsv fsv rs = out) {x : String} (hx : x ∈ rs) : x ∈ out.2 := by
  rw [← h]; unfold finalStep
  split
  · simpa using hx
  · split
    · simpa using hx
    · split <;> simp [List.mem_append, hx]

/-- A SUSPICIOUS verdict passes through `finalStep` unchanged. -/
theorem finalStep_suspicious (sm : Bool) (ss tsv fsv : Option Bool) (rs : List String) :
    finalStep Verdict.SUSPICIOUS sm ss tsv fsv rs = (Verdict.SUSPICIOUS, rs) := rfl

/-- `finalStep` never introduces a SUSPICIOUS verdict. -/
theorem finalStep_not_suspicious (v : Verdict) (hv : v ≠ Verdict.SUSPICIOUS)
    (sm : Bool) (ss tsv fsv : Option Bool) (rs : List String) :
    (finalStep v sm ss tsv fsv rs).1 ≠ Verdict.SUSPICIOUS := by
  unfold finalStep
  have hbe : (v == Verdict.SUSPICIOUS) = false := by
    cases v <;> simp_all
  rw [hbe, if_neg (by simp)]
  split
  · simp
  · split
    · simp
    · simp

/-- The same-model flag produced by the model check. -/
theorem modelStep_fst (a1 a2 : FileAnalysis) : (modelStep a1 a2).1 = sameModelB a1 a2 := by
  simp only [modelStep]
  split
  · rfl
  · split
    · rfl
    · rfl

/-- The verdict produced by the model check: SUSPICIOUS exactly when the
mismatch branch fires. -/
theorem modelStep_verdict (a1 a2 : FileAnalysis) :
    (modelStep a1 a2).2.2 =
      (if modelMismatchFires a1 a2 then Verdict.SUSPICIOUS else Verdict.INCONCLUSIVE) := by
  unfold modelStep modelMismatchFires
  by_cases hsm : sameModelB a1 a2
  · simp [hsm]
  · by_cases ht : (truthyOpt a1.camera_model && truthyOpt a2.camera_model) = true
    · simp [hsm, ht]
    · simp [hsm, ht]

/-- Reduction of the time check on two truthy string timestamps: the
exception cannot occur and the outcome follows the two parses. -/
theorem timeStep_str (s1 s2 : String) (rs : List String)
    (hs1 : (s1 != "") = true) (hs2 : (s2 != "") = true) :
    timeStep (some (ExifValue.vStr s1)) (some (ExifValue.vStr s2)) rs =
      (match parseExifDT (stripTS s1) with
       | none => .ok (none, none, rs ++ [timeParseFailMsg])
       | some t1 =>
         match parseExifDT (stripTS s2) with
         | none => .ok (none, none, rs ++ [timeParseFailMsg])
         | some t2 =>
           if 0 ≤ dtToSecs t2 - dtToSecs t1 then
             .ok (some ((dtToSecs t2 - dtToSecs t1 : Int) : ℚ), some true,
               rs ++ [timeForwardMsg (dtToSecs t2 - dtToSecs t1)])
           else
             .ok (some ((dtToSecs t2 - dtToSecs t1 : Int) : ℚ), some false,
               rs ++ [timeBackwardMsg (dtToSecs t2 - dtToSecs t1)])) := by
  unfold timeStep
  rw [if_pos (by simp [truthyOpt, pyTruthy, hs1, hs2])]
  rfl

/-- When both timestamp fields are safe, the time check cannot raise, and
it only appends to the evidence list. -/
theorem timeStep_safe_ok {d1 d2 : Option ExifValue} (rs : List String)
    (h1 : dtSafe d1 = true) (h2 : dtSafe d2 = true) :
    ∃ td tsv rs4, timeStep d1 d2 rs = .ok (td, tsv, rs4) ∧ ∀ x ∈ rs, x ∈ rs4 := by
  by_cases htr : (truthyOpt d1 && truthyOpt d2) = true
  · obtain ⟨ht1, ht2⟩ := Bool.and_eq_true_iff.mp htr
    obtain ⟨s1, hd1, hs1⟩ := truthy_dtSafe_vStr ht1 h1
    obtain ⟨s2, hd2, hs2⟩ := truthy_dtSafe_vStr ht2 h2
    subst hd1; subst hd2
    rw [timeStep_str s1 s2 rs hs1 hs2]
    cases parseExifDT (stripTS s1) with
    | none =>
      exact ⟨none, none, rs ++ [timeParseFailMsg], rfl,
        fun x hx => by simp [List.mem_append, hx]⟩
    | some t1 =>
      cases parseExifDT (stripTS s2) with
      | none =>
        exact ⟨none, none, rs ++ [timeParseFailMsg], rfl,
          fun x hx => by simp [List.mem_append, hx]⟩
      | some t2 =>
        by_cases hd : (0 : Int) ≤ dtToSecs t2 - dtToSecs t1
        · exact ⟨some ((dtToSecs t2 - dtToSecs t1 : Int) : ℚ), some true,
            rs ++ [timeForwardMsg (dtToSecs t2 - dtToSecs t1)], if_pos hd,
            fun x hx => by simp [List.mem_append, hx]⟩
        · exact ⟨some ((dtToSecs t2 - dtToSecs t1 : Int) : ℚ), some false,
            rs ++ [timeBackwardMsg (dtToSecs t2 - dtToSecs t1)], if_neg hd,
            fun x hx => by simp [List.mem_append, hx]⟩
  · refine ⟨none, none, rs, ?_, fun x hx => hx⟩
    unfold timeStep
    rw [if_neg htr]
    rfl

/-- `pure` on `Except` is `ok`. -/
theorem pure_eq_ok {ε α : Type} (a : α) : (pure a : Except ε α) = Except.ok a := rfl

/-- Reduction of a bind on a successful `Except`. -/
theorem ok_bind {ε α β : Type} (a : α) (f : α → Except ε β) :
    (Except.ok a : Except ε α) >>= f = f a := rfl

/-- Reduction of a bind on a failed `Except`. -/
theorem error_bind {ε α β : Type} (e : ε) (f : α → Except ε β) :
    (Except.error e : Except ε α) >>= f = Except.error e := rfl

/-- Inversion of a successful bind. -/
theorem bind_eq_ok {ε α β : Type} {x : Except ε α} {f : α → Except ε β} {b : β}
    (h : (x >>= f) = .ok b) : ∃ a, x = .ok a ∧ f a = .ok b := by
  cases x with
  | error e => rw [error_bind] at h; cases h
  | ok a =>
    rw [ok_bind] at h
    exact ⟨a, rfl, h⟩

/-- When the first timestamp is a truthy string whose stripped form fails
to parse and the second is truthy, the time check appends the neutral note
and asserts nothing — the second value is never touched. -/
theorem timeStep_fail1 (s1 : String) (d2 : Option ExifValue) (rs : List String)
    (hs1 : (s1 != "") = true) (ht2 : truthyOpt d2 = true)
    (hp1 : parseExifDT (stripTS s1) = none) :
    timeStep (some (ExifValue.vStr s1)) d2 rs =
      .ok (none, none, rs ++ [timeParseFailMsg]) := by
  unfold timeStep
  rw [if_pos (by rw [Bool.and_eq_true]; exact ⟨by simp [truthyOpt, pyTruthy, hs1], ht2⟩)]
  simp only [asPyStr, ok_bind]
  rw [hp1]
  rfl

/-- When both timestamps are truthy strings whose stripped forms parse, the
time check reports the signed delta (file 2 minus file 1) and the validity
of the ordering. -/
theorem timeStep_bothParsed (s1 s2 : String) (rs : List String)
    (hs1 : (s1 != "") = true) (hs2 : (s2 != "") = true)
    (t1 t2 : DateTime6)
    (hp1 : parseExifDT (stripTS s1) = some t1) (hp2 : parseExifDT (stripTS s2) = some t2) :
    timeStep (some (ExifValue.vStr s1)) (some (ExifValue.vStr s2)) rs =
      .ok (some ((dtToSecs t2 - dtToSecs t1 : Int) : ℚ),
           some (decide (0 ≤ dtToSecs t2 - dtToSecs t1)),
           rs ++ [if 0 ≤ dtToSecs t2 - dtToSecs t1 then
                    timeForwardMsg (dtToSecs t2 - dtToSecs t1)
                  else timeBackwardMsg (dtToSecs t2 - dtToSecs t1)]) := by
  by_cases hd : (0 : Int) ≤ dtToSecs t2 - dtToSecs t1
  · rw [timeStep_str s1 s2 rs hs1 hs2, hp1, hp2]
    simp [hd]
  · rw [timeStep_str s1 s2 rs hs1 hs2, hp1, hp2]
    simp [hd]

/-- The verdict after the serial check. -/
theorem serialStep_snd_verdict (a1 a2 : FileAnalysis) (rs : List String) (v : Verdict) :
    (serialStep a1 a2 rs v).2.2 =
      (if serialMismatchFires a1 a2 then Verdict.SUSPICIOUS else v) := by
  unfold serialStep serialMismatchFires
  by_cases hts : (truthyOpt a1.serial_number && truthyOpt a2.serial_number) = true
  · by_cases heq : pyEqOpt a1.serial_number a2.serial_number = true
    · simp [hts, heq]
    · simp only [Bool.not_eq_true] at heq
      simp [hts, heq]
  · simp only [Bool.not_eq_true] at hts
    simp [hts]

/-- `finalStep` yields SUSPICIOUS exactly when its input verdict was
SUSPICIOUS. -/
theorem finalStep_suspicious_iff (v : Verdict) (sm : Bool) (ss tsv fsv : Option Bool)
    (rs : List String) :
    (finalStep v sm ss tsv fsv rs).1 = Verdict.SUSPICIOUS ↔ v = Verdict.SUSPICIOUS := by
  by_cases hv : v = Verdict.SUSPICIOUS
  · subst hv
    rw [finalStep_suspicious]
  · constructor
    · intro h
      exact absurd h (finalStep_not_suspicious v hv sm ss tsv fsv rs)
    · intro h
      exact absurd h hv

/-- Assembly of `compare_records` from the outcomes of its steps. -/
theorem compare_records_eq (a1 a2 : FileAnalysis)
    {sm : Bool} {rs1 : List String} {v1 : Verdict}
    (hm : modelStep a1 a2 = (sm, rs1, v1))
    {ss : Option Bool} {rs2 : List String} {v2 : Verdict}
    (hs : serialStep a1 a2 rs1 v1 = (ss, rs2, v2))
    {sf : Option Bool} {rs3 : List String}
    (hf : firmwareStep a1 a2 rs2 = (sf, rs3))
    {td : Option ℚ} {tsv : Option Bool} {rs4 : List String}
    (ht : timeStep a1.datetime_original a2.datetime_original rs3 = .ok (td, tsv, rs4))
    {fsv : Option Bool} {rs5 : List String}
    (hq : fileSeqStep a1.file_number_hint a2.file_number_hint rs4 = (fsv, rs5))
    {vf : Verdict} {rs7 : List String}
    (hv : finalStep v2 sm ss tsv fsv (editNoteStep a1 a2 rs5) = (vf, rs7)) :
    compare_records a1 a2 = .ok
      { file1 := a1.file_name, file2 := a2.file_name, verdict := vf, reasons := rs7,
        same_camera_model := sm, same_serial_number := ss, same_firmware := sf,
        time_sequence_valid := tsv, file_number_sequence_valid := fsv,
        time_difference_seconds := td } := by
  unfold compare_records
  rw [hm]
  simp only []
  rw [hs]
  simp only []
  rw [hf]
  simp only []
  rw [ht]
  show (Except.ok (td, tsv, rs4) >>= _) = _
  rw [show ∀ (x : Option ℚ × Option Bool × List String)
      (f : Option ℚ × Option Bool × List String → Except PyExn ComparisonResult),
      (Except.ok x >>= f) = f x from fun _ _ => rfl]
  simp only []
  rw [hq]
  simp only []
  rw [hv]
  rfl

/-- The file-number step sets the hint to the coerced counter value when
the resolved counter is numeric and truthy. -/
theorem fileNumberStep_hint (a : FileAnalysis) (fn : String) (exif : Exif)
    {v : ExifValue} {n : Int}
    (hres : get_tag_value exif ["FileNumber", "Canon:FileNumber", "FileIndex"] = some v)
    (hov : numericOverride v = some n) :
    (fileNumberStep a fn exif).file_number_hint = some n := by
  unfold fileNumberStep
  rw [hres]
  cases v with
  | vInt i =>
    by_cases hz : (i != 0) = true
    · simp only [numericOverride, if_pos hz, Option.some.injEq] at hov
      subst hov
      simp [hz]
    · simp [numericOverride, hz] at hov
  | vFloat q =>
    by_cases hz : (q != 0) = true
    · simp only [numericOverride, if_pos hz, Option.some.injEq] at hov
      subst hov
      simp [hz]
    · simp [numericOverride, hz] at hov
  | vStr s => simp [numericOverride] at hov

/-- The miscellaneous step does not touch the file-number hint. -/
theorem miscStep_hint (a : FileAnalysis) (exif : Exif) :
    (miscStep a exif).file_number_hint = a.file_number_hint := rfl

/-- The shooting-parameter step does not touch the file-number hint. -/
theorem techStep_hint (a : FileAnalysis) (exif : Exif) :
    (techStep a exif).file_number_hint = a.file_number_hint := rfl

/-- The integrity step does not touch the file-number hint. -/
theorem integrityStep_hint (a : FileAnalysis) (exif : Exif) :
    (integrityStep a exif).file_number_hint = a.file_number_hint := by
  simp only [integrityStep]
  split <;> split <;> first
    | rfl
    | (split <;> rfl)

/-- The integrity step does not touch the editing flag. -/
theorem integrityStep_flag (a : FileAnalysis) (exif : Exif) :
    (integrityStep a exif).not_out_of_camera = a.not_out_of_camera := by
  simp only [integrityStep]
  split <;> split <;> first
    | rfl
    | (split <;> rfl)

/-- The integrity step does not touch the editing warning. -/
theorem integrityStep_warning (a : FileAnalysis) (exif : Exif) :
    (integrityStep a exif).editing_detected_warning = a.editing_detected_warning := by
  simp only [integrityStep]
  split <;> split <;> first
    | rfl
    | (split <;> rfl)

/-- The integrity step only appends to the integrity notes. -/
theorem integrityStep_notes_mono (a : FileAnalysis) (exif : Exif) {x : String}
    (hx : x ∈ a.exif_integrity_notes) :
    x ∈ (integrityStep a exif).exif_integrity_notes := by
  simp only [integrityStep]
  split <;> split <;> first
    | (split <;> simp [List.mem_append, hx])
    | simp [List.mem_append, hx]

/-- The editing detector returns either a positive detection with a warning
or a negative one with none. -/
theorem check_editing_shape {s p : Option ExifValue} {ew : Bool × Option String}
    (h : check_editing_software s p = .ok ew) :
    (∃ w, ew = (true, some w)) ∨ ew = (false, none) := by
  unfold check_editing_software at h
  obtain ⟨allSoftware, -, h⟩ := bind_eq_ok h
  cases hfind : KNOWN_EDITORS.find? (fun ed => substrB ed allSoftware) with
  | some ed =>
    rw [hfind] at h
    cases h
    exact Or.inl ⟨editorWarning ed, rfl⟩
  | none =>
    rw [hfind] at h
    cases h
    exact Or.inr rfl

/-- The editing step does not touch the file-number hint. -/
theorem editingStep_hint {a b : FileAnalysis} (h : editingStep a = .ok b) :
    b.file_number_hint = a.file_number_hint := by
  unfold editingStep at h
  obtain ⟨ew, hce, h⟩ := bind_eq_ok h
  rcases check_editing_shape hce with ⟨w, hw⟩ | hw <;> subst hw
  · cases h
    rfl
  · cases h
    rfl

/-- After the editing step, the flag holds exactly when a warning is
present, and a present warning is in the integrity notes. -/
theorem editingStep_invariant {a b : FileAnalysis} (h : editingStep a = .ok b) :
    (b.not_out_of_camera = true ↔ b.editing_detected_warning.isSome = true) ∧
    (∀ w, b.editing_detected_warning = some w → w ∈ b.exif_integrity_notes) := by
  unfold editingStep at h
  obtain ⟨ew, hce, h⟩ := bind_eq_ok h
  rcases check_editing_shape hce with ⟨w, hw⟩ | hw <;> subst hw
  · cases h
    refine ⟨by simp, ?_⟩
    intro w' hw'
    simp only [Option.some.injEq] at hw'
    subst hw'
    simp [List.mem_append]
  · cases h
    exact ⟨by simp, by intro w hw; cases hw⟩

/-! ### Claims -/

/-- C1 (counterexample): the discovery heuristic does NOT exclude the
digit-string `"0"` — `value.isdigit()` holds for `"0"`, so a mapping whose
only matching key carries the string `"0"` yields the count `0` with that
key as source, not the absent outcome. -/
theorem C1_counterexample :
    find_shutter_count [("ShutterCount", ExifValue.vStr "0")] = (some 0, "ShutterCount") ∧
    (some (0 : Int), "ShutterCount") ≠ ((none : Option Int), "none") := by
  constructor
  · decide
  · decide

/-- C1 (amended): a numeric match is accepted only when strictly positive
and a string match only when it consists of digits, accepted values being
coerced to integer, so every returned count is nonnegative (not necessarily
strictly positive: the digit-string `"0"` is accepted and yields `0`); a
mapping whose only matching key carries the numeric value `0` yields the
absent outcome `(none, "none")`, and a matching key with value `"1234"`
yields the coerced integer `1234`. -/
theorem C1_shutter_count_nonneg :
    (∀ (exif : Exif) (n : Int) (k : String),
        find_shutter_count exif = (some n, k) → 0 ≤ n) ∧
    find_shutter_count [("ShutterCount", ExifValue.vInt 0)] = (none, "none") ∧
    find_shutter_count [("ShutterCount", ExifValue.vStr "1234")] = (some 1234, "ShutterCount") := by
  refine ⟨?_, by decide, by decide⟩
  intro exif n k h
  unfold find_shutter_count at h
  cases hfs : SHUTTER_COUNT_TAGS.findSome? (fun tagPat =>
      exif.findSome? (fun kv =>
        if shutterKeyMatches tagPat kv.1 then
          (acceptShutterValue kv.2).map (fun n => (n, kv.1))
        else none)) with
  | none => rw [hfs] at h; cases h
  | some nk =>
    rw [hfs] at h
    obtain ⟨tagPat, _, htag⟩ := List.exists_of_findSome?_eq_some hfs
    obtain ⟨kv, _, hkv⟩ := List.exists_of_findSome?_eq_some htag
    cases h
    split at hkv
    · cases hacc : acceptShutterValue kv.2 with
      | none => rw [hacc] at hkv; cases hkv
      | some m =>
        rw [hacc] at hkv
        cases hkv
        exact acceptShutterValue_nonneg kv.2 m hacc
    · cases hkv

/-- C1 (witness for the amended claim): the universal part applied to the
concrete mapping carrying the digit string `"1234"`. -/
theorem C1_shutter_count_nonneg_witness : 0 ≤ (1234 : Int) :=
  C1_shutter_count_nonneg.1 [("ShutterCount", ExifValue.vStr "1234")] 1234 "ShutterCount"
    (by decide)

/-- C2 (the code violates the claim): a backend failure is indeed captured
as an error string in the returned record, but a successful backend call
returning the scalar mapping `{"FileType": 5}` makes `analyze_file` call
`.upper()` on an `int` — an uncaught `AttributeError` escapes to the
caller, so `analyze_file` does not return a record for every scalar-valued
mapping. -/
theorem C2_analyze_raises_on_nonstring_filetype :
    analyze_file c2FailingInput false = .error PyExn.attributeError ∧
    (analyze_file c2BackendErrorInput false).map (fun r => r.errors) =
      .ok ["Ошибка чтения EXIF: ExifTool timeout for /photos/photo.jpg"] := by
  constructor
  · decide
  · decide

/-- C3: when both analyses carry a truthy camera model and the models are
not Python-equal, the comparator returns SUSPICIOUS, and the evidence list
contains the negative model-mismatch entry; no later positive evidence can
change the verdict (the conclusion holds for arbitrary values of every
other field whose timestamps cannot leak an exception, strings included). -/
theorem C3_model_mismatch_forces_suspicious (a1 a2 : FileAnalysis)
    (h1 : truthyOpt a1.camera_model = true) (h2 : truthyOpt a2.camera_model = true)
    (hne : pyEqOpt a1.camera_model a2.camera_model = false)
    (hd1 : dtSafe a1.datetime_original = true) (hd2 : dtSafe a2.datetime_original = true) :
    ∃ r, compare_records a1 a2 = Except.ok r ∧ r.verdict = Verdict.SUSPICIOUS ∧
      modelMismatchMsg a1 a2 ∈ r.reasons := by
  have hsm : sameModelB a1 a2 = false := by
    unfold sameModelB
    rw [hne]
    simp
  have hm : modelStep a1 a2 = (false, [modelMismatchMsg a1 a2], Verdict.SUSPICIOUS) := by
    simp [modelStep, hsm, h1, h2]
  rcases hs : serialStep a1 a2 [modelMismatchMsg a1 a2] Verdict.SUSPICIOUS with ⟨ss, rs2, v2⟩
  have hv2 : v2 = Verdict.SUSPICIOUS := serialStep_keeps_suspicious hs
  subst hv2
  rcases hf : firmwareStep a1 a2 rs2 with ⟨sf, rs3⟩
  obtain ⟨td, tsv, rs4, ht, hmem4⟩ := timeStep_safe_ok rs3 hd1 hd2
  rcases hq : fileSeqStep a1.file_number_hint a2.file_number_hint rs4 with ⟨fsv, rs5⟩
  refine ⟨_, compare_records_eq a1 a2 hm hs hf ht hq
      (finalStep_suspicious false ss tsv fsv (editNoteStep a1 a2 rs5)), rfl, ?_⟩
  exact editNoteStep_mem a1 a2 (fileSeqStep_mem hq (hmem4 _
    (firmwareStep_mem hf (serialStep_mem hs (by simp)))))

/-- C3 (witness): the theorem applied to two concrete records with
differing truthy models. -/
theorem C3_witness :
    ∃ r, compare_records recCanon recNikon = Except.ok r ∧
      r.verdict = Verdict.SUSPICIOUS ∧ modelMismatchMsg recCanon recNikon ∈ r.reasons :=
  C3_model_mismatch_forces_suspicious recCanon recNikon
    (by decide) (by decide) (by decide) (by decide) (by decide)

/-- C4: with equal make and model, a pair of truthy unequal serial numbers
forces SUSPICIOUS with the negative serial-mismatch evidence and the
tri-state set to false, while a missing serial leaves the tri-state unset,
appends the neutral note, and leaves the verdict untouched by this check
(SUSPICIOUS exactly when the model check fired). -/
theorem C4_serial_check (a1 a2 : FileAnalysis)
    (hmk : pyEqOpt a1.camera_make a2.camera_make = true)
    (hmd : pyEqOpt a1.camera_model a2.camera_model = true)
    (hd1 : dtSafe a1.datetime_original = true) (hd2 : dtSafe a2.datetime_original = true) :
    ∃ r, compare_records a1 a2 = Except.ok r ∧
      ((truthyOpt a1.serial_number && truthyOpt a2.serial_number) = true →
        pyEqOpt a1.serial_number a2.serial_number = false →
        r.verdict = Verdict.SUSPICIOUS ∧ r.same_serial_number = some false ∧
          serialMismatchMsg a1 a2 ∈ r.reasons) ∧
      ((truthyOpt a1.serial_number && truthyOpt a2.serial_number) = false →
        r.same_serial_number = none ∧ serialMissingMsg ∈ r.reasons ∧
          (r.verdict = Verdict.SUSPICIOUS ↔ modelMismatchFires a1 a2 = true)) := by
  rcases hm : modelStep a1 a2 with ⟨sm, rs1, v1⟩
  have hv1 : v1 = (if modelMismatchFires a1 a2 then Verdict.SUSPICIOUS
      else Verdict.INCONCLUSIVE) := by
    have hmv := modelStep_verdict a1 a2
    rw [hm] at hmv
    exact hmv
  by_cases hts : (truthyOpt a1.serial_number && truthyOpt a2.serial_number) = true
  · by_cases heq : pyEqOpt a1.serial_number a2.serial_number = true
    · have hs : serialStep a1 a2 rs1 v1 = (some true, rs1 ++ [sameSerialMsg a1], v1) := by
        unfold serialStep
        rw [if_pos hts, if_pos heq]
      rcases hf : firmwareStep a1 a2 (rs1 ++ [sameSerialMsg a1]) with ⟨sf, rs3⟩
      obtain ⟨td, tsv, rs4, ht, hmem4⟩ := timeStep_safe_ok rs3 hd1 hd2
      rcases hq : fileSeqStep a1.file_number_hint a2.file_number_hint rs4 with ⟨fsv, rs5⟩
      rcases hv : finalStep v1 sm (some true) tsv fsv (editNoteStep a1 a2 rs5) with ⟨vf, rs7⟩
      refine ⟨_, compare_records_eq a1 a2 hm hs hf ht hq hv, ?_, ?_⟩
      · intro _ hserne
        rw [heq] at hserne
        cases hserne
      · intro hmiss
        rw [hts] at hmiss
        cases hmiss
    · have heqf : pyEqOpt a1.serial_number a2.serial_number = false := by
        simpa using heq
      have hs : serialStep a1 a2 rs1 v1 =
          (some false, rs1 ++ [serialMismatchMsg a1 a2], Verdict.SUSPICIOUS) := by
        unfold serialStep
        rw [if_pos hts, if_neg (by simp [heqf])]
      rcases hf : firmwareStep a1 a2 (rs1 ++ [serialMismatchMsg a1 a2]) with ⟨sf, rs3⟩
      obtain ⟨td, tsv, rs4, ht, hmem4⟩ := timeStep_safe_ok rs3 hd1 hd2
      rcases hq : fileSeqStep a1.file_number_hint a2.file_number_hint rs4 with ⟨fsv, rs5⟩
      refine ⟨_, compare_records_eq a1 a2 hm hs hf ht hq
          (finalStep_suspicious sm (some false) tsv fsv (editNoteStep a1 a2 rs5)), ?_, ?_⟩
      · intro _ _
        refine ⟨rfl, rfl, ?_⟩
        exact editNoteStep_mem a1 a2 (fileSeqStep_mem hq (hmem4 _
          (firmwareStep_mem hf (by simp [List.mem_append]))))
      · intro hmiss
        rw [hts] at hmiss
        cases hmiss
  · have hts' : (truthyOpt a1.serial_number && truthyOpt a2.serial_number) = false := by
      simpa using hts
    have hs : serialStep a1 a2 rs1 v1 = (none, rs1 ++ [serialMissingMsg], v1) := by
      unfold serialStep
      rw [if_neg (by simp [hts'])]
    rcases hf : firmwareStep a1 a2 (rs1 ++ [serialMissingMsg]) with ⟨sf, rs3⟩
    obtain ⟨td, tsv, rs4, ht, hmem4⟩ := timeStep_safe_ok rs3 hd1 hd2
    rcases hq : fileSeqStep a1.file_number_hint a2.file_number_hint rs4 with ⟨fsv, rs5⟩
    have hmiss_mem : serialMissingMsg ∈ editNoteStep a1 a2 rs5 :=
      editNoteStep_mem a1 a2 (fileSeqStep_mem hq (hmem4 _
        (firmwareStep_mem hf (by simp [List.mem_append]))))
    by_cases hfire : modelMismatchFires a1 a2 = true
    · have hv1' : v1 = Verdict.SUSPICIOUS := by rw [hv1, if_pos hfire]
      subst hv1'
      refine ⟨_, compare_records_eq a1 a2 hm hs hf ht hq
          (finalStep_suspicious sm none tsv fsv (editNoteStep a1 a2 rs5)), ?_, ?_⟩
      · intro habs
        rw [hts'] at habs
        cases habs
      · intro _
        exact ⟨rfl, hmiss_mem, by simp [hfire]⟩
    · have hfiref : modelMismatchFires a1 a2 = false := by simpa using hfire
      have hv1' : v1 = Verdict.INCONCLUSIVE := by rw [hv1, if_neg (by simp [hfiref])]
      subst hv1'
      rcases hv : finalStep Verdict.INCONCLUSIVE sm none tsv fsv (editNoteStep a1 a2 rs5)
        with ⟨vf, rs7⟩
      have hnv : vf ≠ Verdict.SUSPICIOUS := by
        have hns := finalStep_not_suspicious Verdict.INCONCLUSIVE (by simp)
          sm none tsv fsv (editNoteStep a1 a2 rs5)
        rw [hv] at hns
        exact hns
      refine ⟨_, compare_records_eq a1 a2 hm hs hf ht hq hv, ?_, ?_⟩
      · intro habs
        rw [hts'] at habs
        cases habs
      · intro _
        refine ⟨rfl, finalStep_mem hv hmiss_mem, ?_⟩
        constructor
        · intro hvf
          exact absurd hvf hnv
        · intro hff
          rw [hfiref] at hff
          cases hff

/-- C4 (witness): the theorem applied to two concrete records with equal
make/model and differing serials. -/
theorem C4_witness :
    ∃ r, compare_records recSerialA recSerialB = Except.ok r ∧
      ((truthyOpt recSerialA.serial_number && truthyOpt recSerialB.serial_number) = true →
        pyEqOpt recSerialA.serial_number recSerialB.serial_number = false →
        r.verdict = Verdict.SUSPICIOUS ∧ r.same_serial_number = some false ∧
          serialMismatchMsg recSerialA recSerialB ∈ r.reasons) ∧
      ((truthyOpt recSerialA.serial_number && truthyOpt recSerialB.serial_number) = false →
        r.same_serial_number = none ∧ serialMissingMsg ∈ r.reasons ∧
          (r.verdict = Verdict.SUSPICIOUS ↔ modelMismatchFires recSerialA recSerialB = true)) :=
  C4_serial_check recSerialA recSerialB (by decide) (by decide) (by decide) (by decide)

/-- C5: equal make (present on the first file), equal model and equal
truthy serial numbers yield LIKELY_SAME_CAMERA, for arbitrary values of the
remaining fields (firmware, exception-safe timestamps, file-number hints,
editing flags). -/
theorem C5_same_serial_likely (a1 a2 : FileAnalysis)
    (hmk : pyEqOpt a1.camera_make a2.camera_make = true)
    (hmk1 : a1.camera_make.isSome = true)
    (hmd : pyEqOpt a1.camera_model a2.camera_model = true)
    (hts : (truthyOpt a1.serial_number && truthyOpt a2.serial_number) = true)
    (hse : pyEqOpt a1.serial_number a2.serial_number = true)
    (hd1 : dtSafe a1.datetime_original = true) (hd2 : dtSafe a2.datetime_original = true) :
    ∃ r, compare_records a1 a2 = Except.ok r ∧ r.verdict = Verdict.LIKELY_SAME_CAMERA ∧
      r.same_camera_model = true ∧ r.same_serial_number = some true := by
  have hsm : sameModelB a1 a2 = true := by simp [sameModelB, hmk, hmd, hmk1]
  have hm : modelStep a1 a2 = (true, [sameModelMsg a1], Verdict.INCONCLUSIVE) := by
    simp [modelStep, hsm]
  have hs : serialStep a1 a2 [sameModelMsg a1] Verdict.INCONCLUSIVE =
      (some true, [sameModelMsg a1] ++ [sameSerialMsg a1], Verdict.INCONCLUSIVE) := by
    unfold serialStep
    rw [if_pos hts, if_pos hse]
  rcases hf : firmwareStep a1 a2 ([sameModelMsg a1] ++ [sameSerialMsg a1]) with ⟨sf, rs3⟩
  obtain ⟨td, tsv, rs4, ht, -⟩ := timeStep_safe_ok rs3 hd1 hd2
  rcases hq : fileSeqStep a1.file_number_hint a2.file_number_hint rs4 with ⟨fsv, rs5⟩
  have hv : finalStep Verdict.INCONCLUSIVE true (some true) tsv fsv
      (editNoteStep a1 a2 rs5) = (Verdict.LIKELY_SAME_CAMERA, editNoteStep a1 a2 rs5) := rfl
  exact ⟨_, compare_records_eq a1 a2 hm hs hf ht hq hv, rfl, rfl, rfl⟩

/-- C5 (witness): the theorem applied to two concrete records with equal
serial and unfavourable other signals. -/
theorem C5_witness :
    ∃ r, compare_records recSameSerialA recSameSerialB = Except.ok r ∧
      r.verdict = Verdict.LIKELY_SAME_CAMERA ∧
      r.same_camera_model = true ∧ r.same_serial_number = some true :=
  C5_same_serial_likely recSameSerialA recSameSerialB
    (by decide) (by decide) (by decide) (by decide) (by decide) (by decide) (by decide)

/-- C7 (counterexample): only fractional seconds (after the first `.`) and
plus-signed suffixes (after the first `+`) are stripped — a negative UTC
offset is left in place, parsing fails, and the comparator reports no delta
and no validity with the neutral note, where the claim predicts delta 300
and a valid sequence. -/
theorem C7_counterexample :
    (compare_records recTzA recTzB).map (fun r =>
      (r.time_difference_seconds, r.time_sequence_valid,
        decide (timeParseFailMsg ∈ r.reasons))) = .ok (none, none, true) := by
  decide

/-- C7 (amended): the comparator strips fractional seconds and plus-signed
timezone suffixes before parsing (timestamps with other decorations, such
as negative UTC offsets, take the unparseable path); the claim's examples
give delta 300 with a valid sequence and delta −300 with an invalid one;
a stripped timestamp of the first file that fails to parse yields the
neutral note, no delta, no validity assertion, and the verdict is
SUSPICIOUS exactly when the model or serial check fired; two parsed
timestamps yield the signed delta in seconds, file B minus file A, with
validity equal to its nonnegativity. -/
theorem C7_time_sequence :
    ((compare_records recT300A recT300B).map (fun r =>
        (r.time_difference_seconds, r.time_sequence_valid)) =
      .ok (some ((300 : Int) : ℚ), some true)) ∧
    ((compare_records recT300B recT300A).map (fun r =>
        (r.time_difference_seconds, r.time_sequence_valid)) =
      .ok (some ((-300 : Int) : ℚ), some false)) ∧
    (∀ (a1 a2 : FileAnalysis) (s1 : String),
      a1.datetime_original = some (ExifValue.vStr s1) → (s1 != "") = true →
      parseExifDT (stripTS s1) = none → truthyOpt a2.datetime_original = true →
      ∃ r, compare_records a1 a2 = Except.ok r ∧
        r.time_difference_seconds = none ∧ r.time_sequence_valid = none ∧
        timeParseFailMsg ∈ r.reasons ∧
        (r.verdict = Verdict.SUSPICIOUS ↔
          (modelMismatchFires a1 a2 = true ∨ serialMismatchFires a1 a2 = true))) ∧
    (∀ (a1 a2 : FileAnalysis) (s1 s2 : String) (t1 t2 : DateTime6),
      a1.datetime_original = some (ExifValue.vStr s1) → (s1 != "") = true →
      a2.datetime_original = some (ExifValue.vStr s2) → (s2 != "") = true →
      parseExifDT (stripTS s1) = some t1 → parseExifDT (stripTS s2) = some t2 →
      ∃ r, compare_records a1 a2 = Except.ok r ∧
        r.time_difference_seconds = some ((dtToSecs t2 - dtToSecs t1 : Int) : ℚ) ∧
        r.time_sequence_valid = some (decide (0 ≤ dtToSecs t2 - dtToSecs t1))) := by
  refine ⟨by decide, by decide, ?_, ?_⟩
  · intro a1 a2 s1 hdt1 hs1 hp1 ht2
    rcases hm : modelStep a1 a2 with ⟨sm, rs1, v1⟩
    rcases hs : serialStep a1 a2 rs1 v1 with ⟨ss, rs2, v2⟩
    rcases hf : firmwareStep a1 a2 rs2 with ⟨sf, rs3⟩
    have ht : timeStep a1.datetime_original a2.datetime_original rs3 =
        .ok (none, none, rs3 ++ [timeParseFailMsg]) := by
      rw [hdt1]
      exact timeStep_fail1 s1 a2.datetime_original rs3 hs1 ht2 hp1
    rcases hq : fileSeqStep a1.file_number_hint a2.file_number_hint (rs3 ++ [timeParseFailMsg])
      with ⟨fsv, rs5⟩
    rcases hv : finalStep v2 sm ss none fsv (editNoteStep a1 a2 rs5) with ⟨vf, rs7⟩
    refine ⟨_, compare_records_eq a1 a2 hm hs hf ht hq hv, rfl, rfl, ?_, ?_⟩
    · exact finalStep_mem hv (editNoteStep_mem a1 a2 (fileSeqStep_mem hq
        (by simp [List.mem_append])))
    · have h1 : v1 = (if modelMismatchFires a1 a2 then Verdict.SUSPICIOUS
          else Verdict.INCONCLUSIVE) := by
        have hmv := modelStep_verdict a1 a2
        rw [hm] at hmv
        exact hmv
      have h2 : v2 = (if serialMismatchFires a1 a2 then Verdict.SUSPICIOUS else v1) := by
        have hsv := serialStep_snd_verdict a1 a2 rs1 v1
        rw [hs] at hsv
        exact hsv
      have h3 : vf = Verdict.SUSPICIOUS ↔ v2 = Verdict.SUSPICIOUS := by
        have hfv := finalStep_suspicious_iff v2 sm ss none fsv (editNoteStep a1 a2 rs5)
        rw [hv] at hfv
        exact hfv
      rw [h3, h2, h1]
      by_cases hf1 : modelMismatchFires a1 a2 = true <;>
        by_cases hf2 : serialMismatchFires a1 a2 = true <;>
          simp [hf1, hf2]
  · intro a1 a2 s1 s2 t1 t2 hdt1 hs1 hdt2 hs2 hp1 hp2
    rcases hm : modelStep a1 a2 with ⟨sm, rs1, v1⟩
    rcases hs : serialStep a1 a2 rs1 v1 with ⟨ss, rs2, v2⟩
    rcases hf : firmwareStep a1 a2 rs2 with ⟨sf, rs3⟩
    have ht : timeStep a1.datetime_original a2.datetime_original rs3 =
        .ok (some ((dtToSecs t2 - dtToSecs t1 : Int) : ℚ),
             some (decide (0 ≤ dtToSecs t2 - dtToSecs t1)),
             rs3 ++ [if 0 ≤ dtToSecs t2 - dtToSecs t1 then
                       timeForwardMsg (dtToSecs t2 - dtToSecs t1)
                     else timeBackwardMsg (dtToSecs t2 - dtToSecs t1)]) := by
      rw [hdt1, hdt2]
      exact timeStep_bothParsed s1 s2 rs3 hs1 hs2 t1 t2 hp1 hp2
    rcases hq : fileSeqStep a1.file_number_hint a2.file_number_hint
        (rs3 ++ [if 0 ≤ dtToSecs t2 - dtToSecs t1 then
                   timeForwardMsg (dtToSecs t2 - dtToSecs t1)
                 else timeBackwardMsg (dtToSecs t2 - dtToSecs t1)]) with ⟨fsv, rs5⟩
    rcases hv : finalStep v2 sm ss (some (decide (0 ≤ dtToSecs t2 - dtToSecs t1))) fsv
        (editNoteStep a1 a2 rs5) with ⟨vf, rs7⟩
    exact ⟨_, compare_records_eq a1 a2 hm hs hf ht hq hv, rfl, rfl⟩

/-- C7 (witness for the amended claim): the parsed-timestamps part applied
to the concrete example records; the delta is 300 seconds and the sequence
is valid. -/
theorem C7_witness :
    (∃ r, compare_records recT300A recT300B = Except.ok r ∧
      r.time_difference_seconds =
        some ((dtToSecs ⟨2024, 1, 15, 14, 35, 0⟩ - dtToSecs ⟨2024, 1, 15, 14, 30, 0⟩ : Int) : ℚ) ∧
      r.time_sequence_valid =
        some (decide (0 ≤ dtToSecs ⟨2024, 1, 15, 14, 35, 0⟩ - dtToSecs ⟨2024, 1, 15, 14, 30, 0⟩))) :=
  C7_time_sequence.2.2.2 recT300A recT300B
    "2024:01:15 14:30:00" "2024:01:15 14:35:00"
    ⟨2024, 1, 15, 14, 30, 0⟩ ⟨2024, 1, 15, 14, 35, 0⟩
    rfl (by decide) rfl (by decide) (by decide) (by decide)

/-- C6 (counterexample): the scan of `_get_tag_value` compares the
`":" ++ candidate` suffix case-sensitively — for the mapping
`{"EXIF:make": "Canon"}` and candidate `Make` the resolver returns nothing,
while the claim's case-insensitive reading returns the value. -/
theorem C6_counterexample :
    get_tag_value [("EXIF:make", ExifValue.vStr "Canon")] ["Make"] = none ∧
    getTagValueCaseless [("EXIF:make", ExifValue.vStr "Canon")] ["Make"] =
      some (ExifValue.vStr "Canon") := by
  constructor
  · decide
  · decide

/-- C6 (amended): for every mapping and candidate list the resolver returns
the value of the first candidate (in list order) that matches a mapping key
exactly, or else the value of the first mapping key that ends in
`":" ++ candidate` compared case-SENSITIVELY or equals the candidate;
absence is the `none` outcome, never an error. -/
theorem C6_resolver_first_match (exif : Exif) (tags : List String) :
    get_tag_value exif tags = getTagValueSpec exif tags := by
  unfold get_tag_value getTagValueSpec
  congr 1
  funext tag
  rw [hasKey_eq_isSome_find?, lookupKey_eq_find?,
    findSome?_guard_eq_find? (fun kv => endsWithB kv.1 (":" ++ tag) || kv.1 == tag) exif]
  cases hf : exif.find? (fun kv => kv.1 == tag) with
  | none => simp
  | some kv => simp

/-- C8 (counterexample): the bare-digits pattern of `_extract_file_number`
lists only `jpg|jpeg|cr2|cr3|nef|arw` — for `"1234.orf"` the code yields
nothing, while the claim's pattern (with every supported extension,
including `orf`, `rw2`, `dng`) yields `1234`. -/
theorem C8_counterexample :
    extract_file_number "1234.orf" = none ∧
    extractFileNumberClaim "1234.orf" = some 1234 := by
  constructor
  · decide
  · decide

/-- C8 (amended): the file-number hint is the leftmost match of
`(IMG|DSC|_MG|_DSC)_?(\d+)` case-insensitively, and otherwise the leftmost
match of a run of four or more digits immediately preceding a dot and one
of `jpg, jpeg, cr2, cr3, nef, arw` (NOT the full supported-extension list);
`"IMG_1234.CR2"` yields `1234`, `"DSC_0007.JPG"` yields `7`, `"1234.arw"`
yields `1234`, and a filename matching neither pattern yields `none`. -/
theorem C8_file_number_extraction :
    (∀ filename : String, extract_file_number filename = extractFileNumberSpec filename) ∧
    extract_file_number "IMG_1234.CR2" = some 1234 ∧
    extract_file_number "DSC_0007.JPG" = some 7 ∧
    extract_file_number "1234.arw" = some 1234 ∧
    extract_file_number "photo.txt" = none := by
  refine ⟨?_, by decide, by decide, by decide, by decide⟩
  intro filename
  unfold extract_file_number extractFileNumberSpec
  rw [searchLeft_eq_firstPos pat1At, searchLeft_eq_firstPos pat2At]
  cases hx : (List.range (filename.data.length + 1)).findSome?
      (fun i => pat1At (filename.data.drop i)) with
  | none =>
    cases hy : (List.range (filename.data.length + 1)).findSome?
        (fun i => pat2At (filename.data.drop i)) with
    | none => simp [hx, hy]
    | some n => simp [hx, hy]
  | some n => simp [hx]

/-- C9 (counterexample): the metadata contains the numeric counter field
`FileNumber` with value `0`, yet the record's hint is the filename-derived
`1234`, not the coerced counter `0` — the override requires the value to be
truthy (`if exif_file_num and isinstance(...)`), and `0` is falsy. -/
theorem C9_counterexample :
    (analyze_file c9ZeroCounterInput false).map (fun r => r.file_number_hint) =
      .ok (some 1234) ∧
    get_tag_value [("FileNumber", ExifValue.vInt 0)]
      ["FileNumber", "Canon:FileNumber", "FileIndex"] = some (ExifValue.vInt 0) ∧
    some (1234 : Int) ≠ some (0 : Int) := by
  refine ⟨by decide, by decide, by decide⟩

/-- C9 (amended): when the resolver finds a counter value under
`FileNumber`/`Canon:FileNumber`/`FileIndex` that is numeric AND truthy
(nonzero), every record `analyze_file` returns carries that value coerced
to integer as its file-number hint, overriding the filename-derived
value. -/
theorem C9_counter_overrides_filename (inp : AnalyzeInput) (includeRaw : Bool)
    (exif : Exif) (rec : FileAnalysis) (v : ExifValue) (n : Int)
    (hb : inp.backend = .ok exif)
    (hsup : SUPPORTED_EXTENSIONS.contains (lowerStr (pathSuffix inp.fileName)) = true)
    (hres : get_tag_value exif ["FileNumber", "Canon:FileNumber", "FileIndex"] = some v)
    (hov : numericOverride v = some n)
    (h : analyze_file inp includeRaw = .ok rec) :
    rec.file_number_hint = some n := by
  simp only [analyze_file, hb, hsup, Bool.not_true, Bool.false_eq_true, if_false] at h
  obtain ⟨a3, hms, h⟩ := bind_eq_ok h
  obtain ⟨a7, he, h⟩ := bind_eq_ok h
  have hrec : rec = integrityStep (techStep a7 exif) exif := by
    rw [pure_eq_ok, Except.ok.injEq] at h
    exact h.symm
  rw [hrec, integrityStep_hint, techStep_hint, editingStep_hint he, miscStep_hint]
  exact fileNumberStep_hint _ inp.fileName exif hres hov

/-- C9 (witness for the amended claim): a truthy numeric counter overrides
the filename-derived hint. -/
theorem C9_witness :
    ∃ rec, analyze_file c9OverrideInput false = Except.ok rec ∧
      rec.file_number_hint = some 777 := by
  cases h : analyze_file c9OverrideInput false with
  | error e =>
    have hok : (analyze_file c9OverrideInput false).toOption.isSome = true := by decide
    rw [h] at hok
    simp [Except.toOption] at hok
  | ok rec =>
    refine ⟨rec, rfl, ?_⟩
    exact C9_counter_overrides_filename c9OverrideInput false
      [("FileNumber", .vInt 777)] rec (.vInt 777) 777
      rfl (by decide) (by decide) (by decide) h

/-- C10: in every record `analyze_file` returns, the `not_out_of_camera`
flag is true exactly when the editing warning is present, and a present
warning also occurs in the integrity notes. -/
theorem C10_editing_flag_invariant (inp : AnalyzeInput) (includeRaw : Bool)
    (rec : FileAnalysis) (h : analyze_file inp includeRaw = .ok rec) :
    (rec.not_out_of_camera = true ↔ rec.editing_detected_warning.isSome = true) ∧
    (∀ w, rec.editing_detected_warning = some w → w ∈ rec.exif_integrity_notes) := by
  by_cases hsup : SUPPORTED_EXTENSIONS.contains (lowerStr (pathSuffix inp.fileName)) = true
  · cases hb : inp.backend with
    | error e =>
      simp only [analyze_file, hb, hsup, Bool.not_true, Bool.false_eq_true, if_false,
        Except.ok.injEq] at h
      subst h
      exact ⟨by simp, by intro w hw; cases hw⟩
    | ok exif =>
      simp only [analyze_file, hb, hsup, Bool.not_true, Bool.false_eq_true, if_false] at h
      obtain ⟨a3, hms, h⟩ := bind_eq_ok h
      obtain ⟨a7, he, h⟩ := bind_eq_ok h
      have hrec : rec = integrityStep (techStep a7 exif) exif := by
        rw [pure_eq_ok, Except.ok.injEq] at h
        exact h.symm
      obtain ⟨hiff, hmem⟩ := editingStep_invariant he
      constructor
      · rw [hrec, integrityStep_flag, integrityStep_warning]
        exact hiff
      · intro w hw
        rw [hrec, integrityStep_warning] at hw
        rw [hrec]
        exact integrityStep_notes_mono _ exif (hmem w hw)
  · simp only [Bool.not_eq_true] at hsup
    simp only [analyze_file, hsup, Bool.not_false, if_true, Except.ok.injEq] at h
    subst h
    exact ⟨by simp, by intro w hw; cases hw⟩

/-- C10 (witness): the invariant instantiated on a concrete edited file;
the flag, the warning and its presence among the notes are all evaluated. -/
theorem C10_witness :
    ∃ rec, analyze_file c10EditedInput false = Except.ok rec ∧
      ((rec.not_out_of_camera = true ↔ rec.editing_detected_warning.isSome = true) ∧
       (∀ w, rec.editing_detected_warning = some w → w ∈ rec.exif_integrity_notes)) ∧
      rec.not_out_of_camera = true := by
  cases h : analyze_file c10EditedInput false with
  | error e =>
    have hok : (analyze_file c10EditedInput false).toOption.isSome = true := by decide
    rw [h] at hok
    simp [Except.toOption] at hok
  | ok rec =>
    refine ⟨rec, rfl, C10_editing_flag_invariant c10EditedInput false rec h, ?_⟩
    have hflag : (analyze_file c10EditedInput false).map
        (fun r => r.not_out_of_camera) = .ok true := by decide
    rw [h] at hflag
    simp only [Except.map, Except.ok.injEq] at hflag
    exact hflag

end PSI
